import Mathlib

/-!
Verification development for the BlastShield deterministic analysis and
patch-repair engine.  The Python sources under `app/` are shallowly embedded:
pure functions become Lean functions, Python dictionaries become
insertion-ordered association lists, the ambient CPython `ast.parse` is a
parameter `PyParse : String → Option PyNode`, machine floats in the risk
scorer become exact rationals, and Python exceptions become `Except` values.
-/

namespace BlastShield

/-! ## Python string primitives

Models of the CPython `str` / `textwrap` operations the engine uses.  Only
the behaviours exercised by the engine are modelled: line splitting is on
`"\n"` (the engine never feeds `\r` or unicode line separators to these
helpers on the inputs under study). -/

/-- Prefix test on character lists (kernel-reducible `str.startswith`). -/
def charsStartWith : List Char → List Char → Bool
  | _, [] => true
  | [], _ :: _ => false
  | c :: cs, d :: ds => c = d && charsStartWith cs ds

/-- Model of `str.startswith` (kernel-reducible). -/
def sStartsWith (s pre : String) : Bool :=
  charsStartWith s.data pre.data

/-- Model of `str.endswith` (kernel-reducible). -/
def sEndsWith (s suf : String) : Bool :=
  charsStartWith s.data.reverse suf.data.reverse

/-- Splitting worker over character lists; the fuel (at least the input
length plus one, with a nonempty separator) bounds the recursion. -/
def splitOnAuxChars (sep : List Char) : Nat → List Char → List Char →
    List (List Char)
  | 0, s, acc => [acc.reverse ++ s]
  | fuel + 1, s, acc =>
    match s with
    | [] => [acc.reverse]
    | c :: cs =>
        if charsStartWith s sep then
          acc.reverse :: splitOnAuxChars sep fuel (s.drop sep.length) []
        else splitOnAuxChars sep fuel cs (c :: acc)

/-- Model of `str.split(sep)` for a nonempty separator (also the behaviour
of Lean's `String.splitOn`); the empty separator returns the whole string,
which no caller here exercises. -/
def sSplitOn (s sep : String) : List String :=
  if sep = "" then [s]
  else (splitOnAuxChars sep.data (s.data.length + 1) s.data []).map
    fun cs => String.mk cs

/-- Replacement worker over character lists. -/
def replaceAuxChars (pat rep : List Char) : Nat → List Char → List Char
  | 0, s => s
  | fuel + 1, s =>
    match s with
    | [] => []
    | c :: cs =>
        if charsStartWith s pat then
          rep ++ replaceAuxChars pat rep fuel (s.drop pat.length)
        else c :: replaceAuxChars pat rep fuel cs

/-- Model of `str.replace` for a nonempty pattern (left-to-right,
non-overlapping); the empty pattern returns the string unchanged, which no
caller here exercises. -/
def sReplace (s pat rep : String) : String :=
  if pat = "" then s
  else String.mk (replaceAuxChars pat.data rep.data (s.data.length + 1) s.data)

/-- Model of `str.lower` (kernel-reducible). -/
def sToLower (s : String) : String :=
  String.mk (s.data.map Char.toLower)

/-- Characters Python's `str.strip()` removes (the ASCII whitespace set). -/
def isPySpace (c : Char) : Bool :=
  c = ' ' || c = '\t' || c = '\n' || c = '\r' || c = '\x0b' || c = '\x0c'

/-- Model of `str.lstrip()`. -/
def pyLstrip (s : String) : String :=
  String.mk (s.toList.dropWhile isPySpace)

/-- Model of `str.rstrip()`. -/
def pyRstrip (s : String) : String :=
  String.mk ((s.toList.reverse.dropWhile isPySpace).reverse)

/-- Model of `str.strip()`. -/
def pyStrip (s : String) : String :=
  pyRstrip (pyLstrip s)

/-- Model of `str.splitlines()` (no keepends): split on `"\n"`, dropping the
final empty piece a trailing newline produces; the empty string gives `[]`. -/
def pySplitlines (s : String) : List String :=
  if s = "" then []
  else
    let parts := sSplitOn s "\n"
    if parts.getLast? = some "" then parts.dropLast else parts

/-- Model of `str.splitlines(keepends=True)`: like `pySplitlines` but each
line other than a final unterminated one keeps its `"\n"`. -/
def pySplitlinesKeep (s : String) : List String :=
  if s = "" then []
  else
    let parts := sSplitOn s "\n"
    match parts.getLast? with
    | some "" => parts.dropLast.map (· ++ "\n")
    | some last => parts.dropLast.map (· ++ "\n") ++ [last]
    | none => []

/-- Model of the substring test `needle in hay` (the empty needle is in
every string). -/
def pyContains (hay needle : String) : Bool :=
  if needle = "" then true else (sSplitOn hay needle).length != 1

/-- Model of `str.count("\n") + 1` as used for `total_lines`. -/
def pyNewlineCountPlusOne (s : String) : Nat :=
  (sSplitOn s "\n").length

/-- Leading run of spaces and tabs of a line (`textwrap`'s margin unit). -/
def pyLeadingIndent (l : String) : String :=
  String.mk (l.toList.takeWhile (fun c => c = ' ' || c = '\t'))

/-- Longest common prefix of two strings, used for `textwrap.dedent`'s margin. -/
def commonPrefixStr (a b : String) : String :=
  String.mk (go a.toList b.toList)
where
  go : List Char → List Char → List Char
  | x :: xs, y :: ys => if x = y then x :: go xs ys else []
  | _, _ => []

/-- Model of `textwrap.dedent`: whitespace-only lines are normalised to empty,
the common leading space/tab margin of the remaining lines is removed. -/
def pyDedent (text : String) : String :=
  let lines := (sSplitOn text "\n").map fun l =>
    if l ≠ "" && l.toList.all (fun c => c = ' ' || c = '\t') then "" else l
  let margins := (lines.filter (· ≠ "")).map pyLeadingIndent
  let margin := match margins with
    | [] => ""
    | m :: ms => ms.foldl commonPrefixStr m
  let stripped := lines.map fun l =>
    if sStartsWith l margin then l.drop margin.length else l
  String.intercalate "\n" stripped

/-- Model of `textwrap.indent(text, pre)`: prepend `pre` to every line that
contains a non-whitespace character. -/
def pyIndent (text pre : String) : String :=
  String.join ((pySplitlinesKeep text).map fun l =>
    if pyStrip l ≠ "" then pre ++ l else l)

/-- Python's banker's rounding (`round(x)` on a non-negative or negative
rational): round half to even. -/
def pythonRound (q : ℚ) : ℤ :=
  let f : ℤ := ⌊q⌋
  let r : ℚ := q - (f : ℚ)
  if r < 1/2 then f
  else if r > 1/2 then f + 1
  else if f % 2 = 0 then f else f + 1

/-- Python's `round(x, 4)` on a rational. -/
def pythonRound4 (q : ℚ) : ℚ :=
  (pythonRound (q * 10000) : ℚ) / 10000

/-- Python's `round(x, 2)` on a rational. -/
def pythonRound2 (q : ℚ) : ℚ :=
  (pythonRound (q * 100) : ℚ) / 100

/-! ## Insertion-ordered association lists

Python `dict` semantics: lookup by key, assignment overwrites in place
(keeping the key's position), new keys append at the end. -/

/-- Dict lookup, `m.get(k)`. -/
def alistGet {α : Type} (m : List (String × α)) (k : String) : Option α :=
  (m.find? (fun p => p.1 = k)).map (·.2)

/-- Dict membership, `k in m`. -/
def alistHas {α : Type} (m : List (String × α)) (k : String) : Bool :=
  (alistGet m k).isSome

/-- Dict assignment `m[k] = v`. -/
def alistSet {α : Type} (m : List (String × α)) (k : String) (v : α) :
    List (String × α) :=
  if alistHas m k then
    m.map (fun p => if p.1 = k then (k, v) else p)
  else m ++ [(k, v)]

/-- The keys of a dict, in insertion order. -/
def alistKeys {α : Type} (m : List (String × α)) : List String :=
  m.map (·.1)

/-- Model of `m.setdefault(k, []).append(v)` on a dict of lists. -/
def alistPush {α : Type} (m : List (String × List α)) (k : String) (v : α) :
    List (String × List α) :=
  if alistHas m k then
    m.map (fun p => if p.1 = k then (p.1, p.2 ++ [v]) else p)
  else m ++ [(k, [v])]

/-- Model of `m.setdefault(k, set()).add(v)` on a dict of sets: the set is an
insertion-ordered duplicate-free list. -/
def alistPushNew (m : List (String × List String)) (k : String) (v : String) :
    List (String × List String) :=
  if alistHas m k then
    m.map (fun p => if p.1 = k then (p.1, if v ∈ p.2 then p.2 else p.2 ++ [v]) else p)
  else m ++ [(k, [v])]

/-- Left fold with the accumulator first (a reading of Python's
`for x in xs:` accumulation loops). -/
def foldOver {a b : Type} (l : List a) (i : b) (f : b -> a -> b) : b :=
  l.foldl f i

/-! ## The Python abstract syntax tree

The fragment of the CPython `ast` node language the engine's analyses touch.
All statement constructors carry `lineno` (and, where the engine reads it,
`end_lineno`); expression constructors carry it only where the engine uses it
(`Call`, `Await`). -/

/-- Expression contexts (`ast.Load` / `ast.Store` / `ast.Del`). -/
inductive PyCtx where
  | load
  | store
  | del
deriving Repr, DecidableEq

/-- A node of the embedded Python AST.  Function parameters are
`(name, annotation)` pairs; call keywords are `(argname?, value)` pairs
(as in `ast.keyword`, a `None` name is a `**` splat). -/
inductive PyNode where
  | moduleNode (body : List PyNode)
  | functionDef (name : String) (params : List (String × Option PyNode))
      (body : List PyNode) (decorators : List (Nat × PyNode))
      (returns? : Option PyNode) (lineno endLineno : Nat)
  | asyncFunctionDef (name : String) (params : List (String × Option PyNode))
      (body : List PyNode) (decorators : List (Nat × PyNode))
      (returns? : Option PyNode) (lineno endLineno : Nat)
  | classDefNode (name : String) (bases : List PyNode) (body : List PyNode)
      (decorators : List (Nat × PyNode)) (lineno endLineno : Nat)
  | assign (targets : List PyNode) (value : PyNode) (lineno : Nat)
  | augAssign (target : PyNode) (value : PyNode) (lineno : Nat)
  | returnStmt (value? : Option PyNode) (lineno : Nat)
  | exprStmt (value : PyNode) (lineno : Nat)
  | globalStmt (names : List String) (lineno : Nat)
  | importStmt (aliases : List (String × Option String)) (lineno : Nat)
  | importFrom (module? : Option String) (aliases : List (String × Option String))
      (lineno : Nat)
  | tryStmt (body : List PyNode) (handlers : List PyNode)
      (orelse : List PyNode) (finalbody : List PyNode) (lineno : Nat)
  | exceptHandler (type? : Option PyNode) (body : List PyNode)
      (lineno endLineno : Nat)
  | raiseStmt (exc? : Option PyNode) (lineno : Nat)
  | forStmt (target iter : PyNode) (body orelse : List PyNode) (lineno : Nat)
  | asyncForStmt (target iter : PyNode) (body orelse : List PyNode) (lineno : Nat)
  | whileStmt (test : PyNode) (body orelse : List PyNode) (lineno : Nat)
  | passStmt (lineno : Nat)
  | nameExpr (id : String) (ctx : PyCtx)
  | attributeExpr (value : PyNode) (attr : String) (ctx : PyCtx)
  | callExpr (func : PyNode) (args : List PyNode)
      (keywords : List (Option String × PyNode)) (lineno : Nat)
  | awaitExpr (value : PyNode) (lineno : Nat)
  | constantStr (s : String)
  | constantInt (n : Int)
  | constantNone
  | listExpr (elts : List PyNode)
  | setExpr (elts : List PyNode)
  | dictExpr (keys vals : List PyNode)
  | subscriptExpr (value slice : PyNode) (ctx : PyCtx)
deriving Repr

namespace PyNode

mutual

/-- Model of `ast.walk(n)`: `n` together with every descendant node.  CPython
yields nodes breadth-first; this model yields them depth-first.  Every use in
this development (membership tests, counts, emptiness, first-match on a
unique name) is insensitive to that ordering difference. -/
def pyWalk : PyNode → List PyNode
  | n@(moduleNode body) => n :: pyWalkList body
  | n@(functionDef _ params body decorators returns? _ _) =>
      n :: (pyWalkParams params ++ pyWalkList body ++ pyWalkDecos decorators ++
            pyWalkOpt returns?)
  | n@(asyncFunctionDef _ params body decorators returns? _ _) =>
      n :: (pyWalkParams params ++ pyWalkList body ++ pyWalkDecos decorators ++
            pyWalkOpt returns?)
  | n@(classDefNode _ bases body decorators _ _) =>
      n :: (pyWalkList bases ++ pyWalkList body ++ pyWalkDecos decorators)
  | n@(assign targets value _) => n :: (pyWalkList targets ++ pyWalk value)
  | n@(augAssign target value _) => n :: (pyWalk target ++ pyWalk value)
  | n@(returnStmt value? _) => n :: pyWalkOpt value?
  | n@(exprStmt value _) => n :: pyWalk value
  | n@(globalStmt _ _) => [n]
  | n@(importStmt _ _) => [n]
  | n@(importFrom _ _ _) => [n]
  | n@(tryStmt body handlers orelse finalbody _) =>
      n :: (pyWalkList body ++ pyWalkList handlers ++ pyWalkList orelse ++
            pyWalkList finalbody)
  | n@(exceptHandler type? body _ _) => n :: (pyWalkOpt type? ++ pyWalkList body)
  | n@(raiseStmt exc? _) => n :: pyWalkOpt exc?
  | n@(forStmt target iter body orelse _) =>
      n :: (pyWalk target ++ pyWalk iter ++ pyWalkList body ++ pyWalkList orelse)
  | n@(asyncForStmt target iter body orelse _) =>
      n :: (pyWalk target ++ pyWalk iter ++ pyWalkList body ++ pyWalkList orelse)
  | n@(whileStmt test body orelse _) =>
      n :: (pyWalk test ++ pyWalkList body ++ pyWalkList orelse)
  | n@(passStmt _) => [n]
  | n@(nameExpr _ _) => [n]
  | n@(attributeExpr value _ _) => n :: pyWalk value
  | n@(callExpr func args keywords _) =>
      n :: (pyWalk func ++ pyWalkList args ++ pyWalkKeywords keywords)
  | n@(awaitExpr value _) => n :: pyWalk value
  | n@(constantStr _) => [n]
  | n@(constantInt _) => [n]
  | n@constantNone => [n]
  | n@(listExpr elts) => n :: pyWalkList elts
  | n@(setExpr elts) => n :: pyWalkList elts
  | n@(dictExpr keys vals) => n :: (pyWalkList keys ++ pyWalkList vals)
  | n@(subscriptExpr value slice _) => n :: (pyWalk value ++ pyWalk slice)

/-- Walk every node of a list of nodes. -/
def pyWalkList : List PyNode → List PyNode
  | [] => []
  | n :: ns => pyWalk n ++ pyWalkList ns

/-- Walk an optional child node. -/
def pyWalkOpt : Option PyNode → List PyNode
  | none => []
  | some n => pyWalk n

/-- Walk the annotation nodes of a parameter list. -/
def pyWalkParams : List (String × Option PyNode) → List PyNode
  | [] => []
  | (_, a?) :: ps => pyWalkOpt a? ++ pyWalkParams ps

/-- Walk the value nodes of a keyword-argument list. -/
def pyWalkKeywords : List (Option String × PyNode) → List PyNode
  | [] => []
  | (_, v) :: ks => pyWalk v ++ pyWalkKeywords ks

/-- Walk the expression nodes of a decorator list. -/
def pyWalkDecos : List (Nat × PyNode) → List PyNode
  | [] => []
  | (_, d) :: ds => pyWalk d ++ pyWalkDecos ds

end

end PyNode

/-! ## Data models (`app/models`)

Lean images of the pydantic models, with the same field defaults.  `line`
numbers are `Nat` (CPython line numbers are positive).  The `metadata` dict
is a string-to-string association list (the engine only stores string
values). -/

/-- Severity enum (`rule_models.Severity`). -/
inductive Severity where
  | critical
  | high
  | medium
  | low
deriving Repr, DecidableEq

/-- String value of a severity (`Severity.value` on the str-enum). -/
def Severity.value : Severity → String
  | .critical => "critical"
  | .high => "high"
  | .medium => "medium"
  | .low => "low"

/-- Severity weight table (`rule_models.SEVERITY_WEIGHTS`). -/
def SEVERITY_WEIGHTS : Severity → Int
  | .critical => 10
  | .high => 7
  | .medium => 4
  | .low => 1

/-- A rule violation (`rule_models.RuleViolation`). -/
structure RuleViolation where
  rule_id : String
  severity : Severity
  file : String
  line : Nat
  end_line : Option Nat := none
  title : String
  description : String
  evidence : List String := []
  affected_function : String := ""
  graph_node_id : String := ""
  metadata : List (String × String) := []
deriving Repr, DecidableEq

/-- Result of an engine run (`rule_models.RuleResult`).  `scan_duration_ms`
is wall-clock time in the source; the embedding pins it to `0`. -/
structure RuleResult where
  violations : List RuleViolation := []
  rules_executed : List String := []
  total_files_scanned : Nat := 0
  scan_duration_ms : ℚ := 0
deriving Repr, DecidableEq

/-- An import record (`ast_models.ImportNode`); `aliasName` embeds the source
field `alias`. -/
structure ImportNode where
  module : String
  names : List String := []
  aliasName : Option String := none
  line : Nat
  is_from_import : Bool := false
deriving Repr, DecidableEq

/-- A function parameter (`ast_models.Parameter`); `annot` embeds the source
field named after a Python type annotation. -/
structure Parameter where
  name : String
  annot : Option String := none
  default : Option String := none
deriving Repr, DecidableEq

/-- A function or method definition (`ast_models.FunctionDef`); `return_annot`
embeds the source field `return_annotation`. -/
structure FunctionDef where
  name : String
  qualified_name : String := ""
  line : Nat
  end_line : Nat
  is_async : Bool := false
  decorators : List String := []
  parameters : List Parameter := []
  return_annot : Option String := none
  calls : List String := []
  awaits : List String := []
  exceptions_raised : List String := []
  exceptions_caught : List String := []
  has_bare_except : Bool := false
  has_try_except : Bool := false
  reads_globals : List String := []
  writes_globals : List String := []
  body_source : String := ""
deriving Repr, DecidableEq

/-- A class definition (`ast_models.ClassDef`). -/
structure ClassDef where
  name : String
  line : Nat
  end_line : Nat
  bases : List String := []
  methods : List FunctionDef := []
  class_variables : List String := []
  decorators : List String := []
deriving Repr, DecidableEq

/-- A variable assignment or mutation (`ast_models.VariableMutation`). -/
structure VariableMutation where
  name : String
  line : Nat
  scope : String := "local"
  is_augmented : Bool := false
  target_type : Option String := none
deriving Repr, DecidableEq

/-- An async boundary (`ast_models.AsyncBoundary`). -/
structure AsyncBoundary where
  type : String
  name : String := ""
  line : Nat
  enclosing_function : String := ""
deriving Repr, DecidableEq

/-- An exception handler block (`ast_models.ExceptionFlow`). -/
structure ExceptionFlow where
  line : Nat
  end_line : Nat
  exception_types : List String := []
  is_bare_except : Bool := false
  enclosing_function : String := ""
  has_reraise : Bool := false
deriving Repr, DecidableEq

/-- A parsed module (`ast_models.ModuleAST`). -/
structure ModuleAST where
  file_path : String
  language : String := "python"
  imports : List ImportNode := []
  functions : List FunctionDef := []
  classes : List ClassDef := []
  variable_mutations : List VariableMutation := []
  async_boundaries : List AsyncBoundary := []
  exception_flows : List ExceptionFlow := []
  module_level_names : List String := []
  total_lines : Nat := 0
  parse_errors : List String := []
deriving Repr, DecidableEq

/-! ## The AST parser (`app/core/ast_parser.py`)

The ambient `ast.parse` is a parameter of type `PyParse`: `none` models a
`SyntaxError`.  Everything from the parsed tree on is translated from
`_PythonVisitor` and `parse_python`/`parse_file`. -/

/-- The ambient CPython parser: source text to tree, `none` on `SyntaxError`. -/
abbrev PyParse := String → Option PyNode

/-- Model of `_PythonVisitor._extract_name`: dotted-name extraction from an
expression node.  `str()` of a constant becomes the string itself, decimal
notation for an int, `"None"` for `None`. -/
def extract_name : PyNode → String
  | .nameExpr id _ => id
  | .attributeExpr value attr _ =>
      let value_name := extract_name value
      if value_name ≠ "" then value_name ++ "." ++ attr else attr
  | .constantStr s => s
  | .constantInt n => toString n
  | .constantNone => "None"
  | .subscriptExpr value _ _ => extract_name value
  | _ => ""

/-- Model of `_PythonVisitor._extract_calls`: every call target and every
awaited call target, in walk order, skipping empty names. -/
def extract_calls (n : PyNode) : List String × List String :=
  foldOver ((PyNode.pyWalk n)) (([], [])) fun cw child =>
    let cw1 := match child with
      | .callExpr f _ _ _ =>
          let nm := extract_name f
          if nm ≠ "" then (cw.1 ++ [nm], cw.2) else cw
      | _ => cw
    match child with
    | .awaitExpr (.callExpr f _ _ _) _ =>
        let nm := extract_name f
        if nm ≠ "" then (cw1.1, cw1.2 ++ [nm]) else cw1
    | _ => cw1

/-- Model of `_PythonVisitor._get_source_segment`: the source lines spanning
`lineno..end_lineno` joined with newlines. -/
def get_source_segment (source_lines : List String) (lineno endLineno : Nat) :
    String :=
  String.intercalate "\n" ((source_lines.drop (lineno - 1)).take
    (endLineno - (lineno - 1)))

/-- Model of `_PythonVisitor._parse_function`.  The source constructs the
pydantic `FunctionDef` without the `reads_globals` / `writes_globals`
arguments (its `_extract_global_access` helper is never invoked), so both
fields take the model default `[]`. -/
def parse_function (source_lines : List String) (class_name : String)
    (isAsync : Bool) (name : String) (params : List (String × Option PyNode))
    (body : List PyNode) (decorators : List (Nat × PyNode))
    (returns? : Option PyNode) (lineno endLineno : Nat) : FunctionDef :=
  let node : PyNode :=
    if isAsync then .asyncFunctionDef name params body decorators returns? lineno endLineno
    else .functionDef name params body decorators returns? lineno endLineno
  let ps : List Parameter := params.map fun (a, ann?) =>
    { name := a, annot := ann?.map extract_name }
  let return_ann := returns?.map extract_name
  let decs := decorators.map (fun d => extract_name d.2)
  let ca := extract_calls node
  let exc := foldOver ((PyNode.pyWalk node)) ((([] : List String), ([] : List String), false, false))
    fun acc child =>
      let acc := match child with
        | .raiseStmt (some e) _ => (acc.1 ++ [extract_name e], acc.2.1, acc.2.2.1, acc.2.2.2)
        | _ => acc
      match child with
      | .exceptHandler (some t) _ _ _ =>
          (acc.1, acc.2.1 ++ [extract_name t], acc.2.2.1, true)
      | .exceptHandler none _ _ _ => (acc.1, acc.2.1, true, true)
      | _ => acc
  let qualified := if class_name ≠ "" then class_name ++ "." ++ name else name
  { name := name
    qualified_name := qualified
    line := lineno
    end_line := endLineno
    is_async := isAsync
    decorators := decs
    parameters := ps
    return_annot := return_ann
    calls := ca.1
    awaits := ca.2
    exceptions_raised := exc.1
    exceptions_caught := exc.2.1
    has_bare_except := exc.2.2.1
    has_try_except := exc.2.2.2
    body_source := get_source_segment source_lines lineno endLineno }


/-! ## The module visitor (`_PythonVisitor`)

The source's `_scope_stack` is pushed nowhere, so `self._scope_stack` is
always empty and every `if not self._scope_stack` guard passes; the embedding
reflects that (there is no stack).  `generic_visit` descends into children in
CPython field order; `visit_ClassDef` deliberately does not descend. -/

/-- Accumulated visitor state (the collection attributes of `_PythonVisitor`). -/
structure VisitState where
  imports : List ImportNode := []
  functions : List FunctionDef := []
  classes : List ClassDef := []
  variable_mutations : List VariableMutation := []
  async_boundaries : List AsyncBoundary := []
  exception_flows : List ExceptionFlow := []
  module_level_names : List String := []
deriving Repr, DecidableEq

/-- Action of `visit_Import`. -/
def visitImportAction (st : VisitState) (aliases : List (String × Option String))
    (lineno : Nat) : VisitState :=
  { st with imports := st.imports ++ aliases.map fun (nm, as?) =>
      { module := nm, names := [nm], aliasName := as?, line := lineno,
        is_from_import := false } }

/-- Action of `visit_ImportFrom`. -/
def visitImportFromAction (st : VisitState) (module? : Option String)
    (aliases : List (String × Option String)) (lineno : Nat) : VisitState :=
  { st with imports := st.imports ++
      [{ module := module?.getD "", names := aliases.map (·.1),
         aliasName := none, line := lineno, is_from_import := true }] }

/-- Action of `visit_Assign` (module-level guard always passes): one
`VariableMutation` and one module-level name per non-empty target name, with
the syntactic `target_type` inference. -/
def visitAssignAction (st : VisitState) (targets : List PyNode) (value : PyNode)
    (lineno : Nat) : VisitState :=
  foldOver (targets) (st) fun st target =>
    let nm := extract_name target
    if nm ≠ "" then
      let target_type : Option String := match value with
        | .listExpr _ => some "list"
        | .dictExpr _ _ => some "dict"
        | .setExpr _ => some "set"
        | .callExpr f _ _ _ => some (extract_name f)
        | _ => none
      { st with
        variable_mutations := st.variable_mutations ++
          [{ name := nm, line := lineno, scope := "module",
             target_type := target_type }]
        module_level_names := st.module_level_names ++ [nm] }
    else st

/-- Action of `visit_AugAssign`: the scope stack is always empty, so the
recorded scope is `"module"`. -/
def visitAugAssignAction (st : VisitState) (target : PyNode) (lineno : Nat) :
    VisitState :=
  let nm := extract_name target
  if nm ≠ "" then
    { st with variable_mutations := st.variable_mutations ++
        [{ name := nm, line := lineno, scope := "module", is_augmented := true }] }
  else st

/-- Action of `visit_Try`: one `ExceptionFlow` per handler. -/
def visitTryAction (st : VisitState) (handlers : List PyNode) : VisitState :=
  foldOver (handlers) (st) fun st h =>
    match h with
    | .exceptHandler type? body lineno endLineno =>
        let has_reraise := (PyNode.pyWalk (.exceptHandler type? body lineno endLineno)).any
          fun c => match c with | .raiseStmt none _ => true | _ => false
        { st with exception_flows := st.exception_flows ++
            [{ line := lineno, end_line := endLineno,
               exception_types := match type? with
                 | some t => [extract_name t]
                 | none => []
               is_bare_except := type?.isNone, has_reraise := has_reraise }] }
    | _ => st

/-- Async boundaries collected by `visit_AsyncFunctionDef`'s walk over the
function body: `await` expressions (their recorded name goes through
`_extract_name` on the `Call` node, which yields `""`), `async for`, and
`async with` (the last absent from this AST fragment). -/
def asyncBoundariesOf (funcName : String) (node : PyNode) : List AsyncBoundary :=
  foldOver ((PyNode.pyWalk node)) ([]) fun acc c =>
    match c with
    | .awaitExpr v lineno =>
        acc ++ [{ type := "await",
                  name := match v with
                    | .callExpr f args kws l => extract_name (.callExpr f args kws l)
                    | _ => ""
                  line := lineno, enclosing_function := funcName }]
    | .asyncForStmt _ _ _ _ lineno =>
        acc ++ [{ type := "async_for", line := lineno,
                  enclosing_function := funcName }]
    | _ => acc

/-- Action of `visit_ClassDef` (records and does not descend). -/
def visitClassAction (src : List String) (st : VisitState) (name : String)
    (bases : List PyNode) (body : List PyNode)
    (decorators : List (Nat × PyNode)) (lineno endLineno : Nat) : VisitState :=
  let methods := foldOver (body) (([] : List FunctionDef)) fun acc item =>
    match item with
    | .functionDef n ps b ds r? l e =>
        acc ++ [parse_function src name false n ps b ds r? l e]
    | .asyncFunctionDef n ps b ds r? l e =>
        acc ++ [parse_function src name true n ps b ds r? l e]
    | _ => acc
  let class_vars := foldOver (body) (([] : List String)) fun acc item =>
    match item with
    | .assign targets _ _ =>
        foldOver (targets) (acc) fun acc t =>
          let nm := extract_name t
          if nm ≠ "" then acc ++ [nm] else acc
    | _ => acc
  { st with
    classes := st.classes ++
      [{ name := name, line := lineno, end_line := endLineno,
         bases := bases.map extract_name, methods := methods,
         class_variables := class_vars,
         decorators := decorators.map (fun d => extract_name d.2) }]
    module_level_names := st.module_level_names ++ [name] }

mutual

/-- Model of `_PythonVisitor.visit` on one node: the matching `visit_*`
action (if any) followed by `generic_visit`'s descent into child nodes —
except for `ClassDef`, which does not descend. -/
def visitNode (src : List String) (st : VisitState) : PyNode → VisitState
  | .moduleNode body => visitList src st body
  | .functionDef name params body decorators returns? l e =>
      let st :=
        { st with
          functions := st.functions ++
            [parse_function src "" false name params body decorators returns? l e]
          module_level_names := st.module_level_names ++ [name] }
      let st := visitParams src st params
      let st := visitList src st body
      let st := visitDecos src st decorators
      visitOpt src st returns?
  | .asyncFunctionDef name params body decorators returns? l e =>
      let node : PyNode := .asyncFunctionDef name params body decorators returns? l e
      let st :=
        { st with
          functions := st.functions ++
            [parse_function src "" true name params body decorators returns? l e]
          module_level_names := st.module_level_names ++ [name]
          async_boundaries := st.async_boundaries ++
            [({ type := "async_def", name := name, line := l } : AsyncBoundary)] }
      let st := { st with async_boundaries := st.async_boundaries ++
                    asyncBoundariesOf name node }
      let st := visitParams src st params
      let st := visitList src st body
      let st := visitDecos src st decorators
      visitOpt src st returns?
  | .classDefNode name bases body decorators l e =>
      visitClassAction src st name bases body decorators l e
  | .assign targets value lineno =>
      let st := visitAssignAction st targets value lineno
      let st := visitList src st targets
      visitNode src st value
  | .augAssign target value lineno =>
      let st := visitAugAssignAction st target lineno
      let st := visitNode src st target
      visitNode src st value
  | .returnStmt value? _ => visitOpt src st value?
  | .exprStmt value _ => visitNode src st value
  | .globalStmt _ _ => st
  | .importStmt aliases lineno =>
      visitImportAction st aliases lineno
  | .importFrom module? aliases lineno =>
      visitImportFromAction st module? aliases lineno
  | .tryStmt body handlers orelse finalbody _ =>
      let st := visitTryAction st handlers
      let st := visitList src st body
      let st := visitList src st handlers
      let st := visitList src st orelse
      visitList src st finalbody
  | .exceptHandler type? body _ _ =>
      let st := visitOpt src st type?
      visitList src st body
  | .raiseStmt exc? _ => visitOpt src st exc?
  | .forStmt target iter body orelse _ =>
      let st := visitNode src st target
      let st := visitNode src st iter
      let st := visitList src st body
      visitList src st orelse
  | .asyncForStmt target iter body orelse _ =>
      let st := visitNode src st target
      let st := visitNode src st iter
      let st := visitList src st body
      visitList src st orelse
  | .whileStmt test body orelse _ =>
      let st := visitNode src st test
      let st := visitList src st body
      visitList src st orelse
  | .passStmt _ => st
  | .nameExpr _ _ => st
  | .attributeExpr value _ _ => visitNode src st value
  | .callExpr func args keywords _ =>
      let st := visitNode src st func
      let st := visitList src st args
      visitKeywords src st keywords
  | .awaitExpr value _ => visitNode src st value
  | .constantStr _ => st
  | .constantInt _ => st
  | .constantNone => st
  | .listExpr elts => visitList src st elts
  | .setExpr elts => visitList src st elts
  | .dictExpr keys vals =>
      let st := visitList src st keys
      visitList src st vals
  | .subscriptExpr value slice _ =>
      let st := visitNode src st value
      visitNode src st slice

/-- Visit a list of nodes, left to right. -/
def visitList (src : List String) (st : VisitState) : List PyNode → VisitState
  | [] => st
  | n :: ns => visitList src (visitNode src st n) ns

/-- Visit an optional child node. -/
def visitOpt (src : List String) (st : VisitState) : Option PyNode → VisitState
  | none => st
  | some n => visitNode src st n

/-- Visit the annotation nodes of a parameter list. -/
def visitParams (src : List String) (st : VisitState) :
    List (String × Option PyNode) → VisitState
  | [] => st
  | (_, a?) :: ps => visitParams src (visitOpt src st a?) ps

/-- Visit the value nodes of a keyword-argument list. -/
def visitKeywords (src : List String) (st : VisitState) :
    List (Option String × PyNode) → VisitState
  | [] => st
  | (_, v) :: ks => visitKeywords src (visitNode src st v) ks

/-- Visit the expression nodes of a decorator list. -/
def visitDecos (src : List String) (st : VisitState) :
    List (Nat × PyNode) → VisitState
  | [] => st
  | (_, d) :: ds => visitDecos src (visitNode src st d) ds

end

/-- Model of `parse_python`.  A `SyntaxError` (the oracle returns `none`)
yields the error-module; the interpolated exception text of the source's
message is not observable by any property here and is modelled by the fixed
marker `"SyntaxError"`.  `list(set(names))` (whose order CPython leaves
unspecified) is modelled as first-occurrence deduplication. -/
def parse_python (pyParse : PyParse) (source : String)
    (file_path : String) : ModuleAST :=
  match pyParse source with
  | none =>
      { file_path := file_path, language := "python",
        total_lines := pyNewlineCountPlusOne source,
        parse_errors := ["SyntaxError"] }
  | some tree =>
      let body := match tree with
        | .moduleNode b => b
        | n => [n]
      let lines := pySplitlines source
      let st := visitList lines {} body
      { file_path := file_path
        language := "python"
        imports := st.imports
        functions := st.functions
        classes := st.classes
        variable_mutations := st.variable_mutations
        async_boundaries := st.async_boundaries
        exception_flows := st.exception_flows
        module_level_names := st.module_level_names.eraseDups
        total_lines := lines.length
        parse_errors := [] }

/-- Model of `parse_file`: extension dispatch, then `parse_python`. -/
def parse_file (pyParse : PyParse) (source file_path : String) : ModuleAST :=
  if sEndsWith file_path ".js" || sEndsWith file_path ".ts" ||
     sEndsWith file_path ".jsx" || sEndsWith file_path ".tsx" then
    { file_path := file_path, language := "javascript",
      total_lines := pyNewlineCountPlusOne source,
      parse_errors := ["JS/TS AST parsing not yet implemented — falling back to rule-skip"] }
  else parse_python pyParse source file_path

/-! ## Call graph models (`app/models/graph_models.py`) -/

/-- Edge kind (`graph_models.CallType`); `importKind` embeds the member named
after the Python keyword `import`. -/
inductive CallType where
  | direct
  | importKind
  | method
  | callback
deriving Repr, DecidableEq

/-- String value of a `CallType`. -/
def CallType.value : CallType → String
  | .direct => "direct"
  | .importKind => "import"
  | .method => "method"
  | .callback => "callback"

/-- A call-graph node (`graph_models.CallGraphNode`). -/
structure CallGraphNode where
  id : String
  module : String
  function : String
  is_async : Bool := false
  is_entry_point : Bool := false
  reads_shared_state : List String := []
  writes_shared_state : List String := []
  line : Nat := 0
deriving Repr, DecidableEq

/-- A call-graph edge (`graph_models.CallGraphEdge`). -/
structure CallGraphEdge where
  source : String
  target : String
  call_type : CallType := .direct
  async_boundary_crossing : Bool := false
  line : Nat := 0
deriving Repr, DecidableEq

/-- The call graph (`graph_models.CallGraph`); `nodes` is an
insertion-ordered dict. -/
structure CallGraph where
  nodes : List (String × CallGraphNode) := []
  edges : List CallGraphEdge := []
deriving Repr, DecidableEq

/-- Model of `CallGraph.get_neighbors`. -/
def CallGraph.get_neighbors (g : CallGraph) (node_id : String) : List String :=
  (g.edges.filter (fun e => e.source = node_id)).map (·.target)

/-- Model of `CallGraph.get_callers`. -/
def CallGraph.get_callers (g : CallGraph) (node_id : String) : List String :=
  (g.edges.filter (fun e => e.target = node_id)).map (·.source)

/-- One round of the blast-radius BFS: consume the queue, marking unvisited
ids and collecting their neighbours as the next queue. -/
def bfsRound (g : CallGraph) (visited queue : List String) :
    List String × List String :=
  foldOver (queue) ((visited, ([] : List String))) fun acc nid =>
    if nid ∈ acc.1 then acc
    else (acc.1 ++ [nid], acc.2 ++ g.get_neighbors nid)

/-- The `while queue:` loop of `get_blast_radius`.  The fuel is an upper
bound on the number of rounds: every round that continues visits at least one
new id out of the start node and the edge targets. -/
def blastLoop (g : CallGraph) : Nat → List String → List String → Nat → Nat
  | 0, _, _, depth => depth
  | fuel + 1, visited, queue, depth =>
      if queue.isEmpty then depth
      else
        let vq := bfsRound g visited queue
        if vq.2.isEmpty then depth
        else blastLoop g fuel vq.1 vq.2 (depth + 1)

/-- Model of `CallGraph.get_blast_radius`: BFS depth (levels) through
outgoing edges from `node_id`. -/
def CallGraph.get_blast_radius (g : CallGraph) (node_id : String) : Nat :=
  blastLoop g (g.edges.length + 2) [] [node_id] 0

/-- Model of `CallGraph.get_max_depth`. -/
def CallGraph.get_max_depth (g : CallGraph) : Nat :=
  if g.nodes.isEmpty then 0
  else (g.nodes.map (fun p => g.get_blast_radius p.1)).foldl Nat.max 0

/-! ## Rule catalog (`app/core/rules`)

The eight checks reachable from `RULE_REGISTRY`, plus `missing_http_timeout`
(present in the `rules/` directory but absent from the registry).  Checks
whose source re-parses `body_source` with `ast.parse` take the `PyParse`
oracle. -/

/-- The Python `x or y` default on the qualified name:
`func.qualified_name or func.name`. -/
def orName (f : FunctionDef) : String :=
  if f.qualified_name ≠ "" then f.qualified_name else f.name

/-- Functions plus all class methods, in the order every rule builds
`all_funcs`. -/
def allFuncs (m : ModuleAST) : List FunctionDef :=
  m.functions ++ m.classes.flatMap (·.methods)

/-- Ordered-set insertion (models `set.add` where only membership and a
single enumeration are ever used). -/
def setAdd (l : List String) (v : String) : List String :=
  if v ∈ l then l else l ++ [v]

/-- Python `repr` of a list of strings, for f-string interpolation of lists. -/
def pyReprList (l : List String) : String :=
  "[" ++ String.intercalate ", " (l.map fun s => "'" ++ s ++ "'") ++ "]"

/-- Python `sorted` on strings (stable ascending by code point). -/
def pySorted (l : List String) : List String :=
  l.foldr insertSorted []
where
  insertSorted (x : String) : List String → List String
  | [] => [x]
  | y :: ys => if x ≤ y then x :: y :: ys else y :: insertSorted x ys

/-- The dotted call-name extraction each rule module defines privately
(`_extract_call_name`): plain names and dotted attributes only. -/
def ruleCallName : PyNode → String
  | .nameExpr id _ => id
  | .attributeExpr value attr _ =>
      let v := ruleCallName value
      if v ≠ "" then v ++ "." ++ attr else attr
  | _ => ""

/-- The `dangerous_eval` variant of `_extract_call_name`: an attribute
contributes only its final segment. -/
def ruleCallNameLast : PyNode → String
  | .nameExpr id _ => id
  | .attributeExpr _ attr _ => attr
  | _ => ""

/-- Model of `race_condition.check`. -/
def race_condition_check (module_ast : ModuleAST) (_call_graph : Option CallGraph) :
    List RuleViolation :=
  let mutable_vars : List (String × String) :=
    foldOver (module_ast.variable_mutations) ([]) fun mv vm =>
      if vm.scope = "module" &&
         (vm.target_type = some "list" || vm.target_type = some "dict" ||
          vm.target_type = some "set") then
        alistSet mv vm.name ((vm.target_type).getD "unknown")
      else mv
  if mutable_vars.isEmpty then []
  else
    let async_funcs :=
      module_ast.functions.filter (·.is_async) ++
      module_ast.classes.flatMap (fun cls => cls.methods.filter (·.is_async))
    let writers : List (String × List String) :=
      foldOver (async_funcs) ([]) fun w func =>
        foldOver (func.writes_globals) (w) fun w var_name =>
          if alistHas mutable_vars var_name then
            alistPush w var_name (orName func)
          else w
    foldOver (writers) ([]) fun violations (var_name, func_names) =>
      if func_names.length > 1 then
        let ty := (alistGet mutable_vars var_name).getD "unknown"
        violations ++ [{
          rule_id := "race_condition"
          severity := .critical
          file := module_ast.file_path
          line := ((module_ast.variable_mutations.find?
            (fun vm => vm.name = var_name)).map (·.line)).getD 0
          title := "Race condition: '" ++ var_name ++
            "' written by multiple async functions"
          description := "Module-level mutable '" ++ var_name ++ "' (" ++ ty ++
            ") is written by " ++ toString func_names.length ++
            " async functions: " ++ String.intercalate ", " func_names ++
            ". Without synchronization (locks/queues), concurrent execution will cause data corruption."
          evidence := [
            "Shared mutable variable: " ++ var_name ++ " (type: " ++ ty ++ ")",
            "Async writers: " ++ String.intercalate ", " func_names,
            "No synchronization primitive detected"]
          affected_function := (func_names.head?).getD "" }]
      else violations

/-- Model of `missing_await.check`. -/
def missing_await_check (module_ast : ModuleAST) (call_graph : Option CallGraph) :
    List RuleViolation :=
  let names0 := foldOver (module_ast.functions) (([] : List String))
    fun s f => if f.is_async then setAdd s f.name else s
  let names1 := foldOver (module_ast.classes) (names0) fun s cls =>
    foldOver (cls.methods) (s) fun s m =>
      if m.is_async then setAdd (setAdd s m.name) (cls.name ++ "." ++ m.name)
      else s
  if names1.isEmpty then []
  else
    let async_func_names := match call_graph with
      | some g => foldOver (g.nodes) (names1) fun s p =>
          if p.2.is_async then setAdd s p.2.function else s
      | none => names1
    foldOver ((allFuncs module_ast)) ([]) fun violations func =>
      let awaited_names := func.awaits.eraseDups
      foldOver (func.calls) (violations) fun violations call_name =>
        let base_name :=
          if pyContains call_name "." then ((sSplitOn call_name ".").getLast?).getD ""
          else call_name
        if (base_name ∈ async_func_names || call_name ∈ async_func_names) &&
           (call_name ∉ awaited_names && base_name ∉ awaited_names) then
          violations ++ [{
            rule_id := "missing_await"
            severity := if func.is_async then .high else .critical
            file := module_ast.file_path
            line := func.line
            title := "Async function '" ++ call_name ++ "' called without await"
            description := "In function '" ++ func.name ++ "', async function '" ++
              call_name ++
              "' is called without 'await'. The coroutine will be created but never executed, silently dropping the operation."
            evidence := [
              "Caller: " ++ orName func ++ " (async=" ++
                (if func.is_async then "True" else "False") ++ ")",
              "Callee: " ++ call_name ++ " (async=True)",
              "No 'await' keyword found for this call",
              "Awaited calls in this function: " ++
                (if awaited_names.isEmpty then "none" else pyReprList awaited_names)]
            affected_function := orName func }]
        else violations

/-- Severity table of `unsanitized_io.DANGEROUS_IO_CALLS`. -/
def DANGEROUS_IO_CALLS : List (String × Severity) := [
  ("open", .high), ("os.open", .high), ("os.remove", .critical),
  ("os.unlink", .critical), ("os.rmdir", .critical), ("os.makedirs", .medium),
  ("shutil.rmtree", .critical), ("shutil.copy", .high), ("shutil.move", .high),
  ("subprocess.run", .critical), ("subprocess.call", .critical),
  ("subprocess.Popen", .critical), ("os.system", .critical)]

/-- Model of `unsanitized_io._find_tainted_names`: parameter names appearing
as `Name` nodes anywhere in an expression. -/
def find_tainted_names (node : PyNode) (param_names : List String) : List String :=
  foldOver (PyNode.pyWalk node) [] fun acc c =>
    match c with
    | .nameExpr id _ => if id ∈ param_names then acc ++ [id] else acc
    | _ => acc

/-- Model of `unsanitized_io.check`. -/
def unsanitized_io_check (pyParse : PyParse) (module_ast : ModuleAST)
    (_call_graph : Option CallGraph) : List RuleViolation :=
  foldOver (allFuncs module_ast) [] fun violations func =>
    if pyStrip func.body_source = "" then violations
    else
      let param_names :=
        foldOver func.parameters [] fun s p =>
          if p.name ≠ "self" then setAdd s p.name else s
      if param_names.isEmpty then violations
      else
        match pyParse func.body_source with
        | none => violations
        | some tree =>
            foldOver (PyNode.pyWalk tree) violations fun violations node =>
              match node with
              | .callExpr f args keywords lineno =>
                  let call_name := ruleCallName f
                  if alistHas DANGEROUS_IO_CALLS call_name then
                    let severity := (alistGet DANGEROUS_IO_CALLS call_name).getD .high
                    let tainted_params :=
                      (args.flatMap fun a => find_tainted_names a param_names) ++
                      (keywords.flatMap fun kv => find_tainted_names kv.2 param_names)
                    if ¬ tainted_params.isEmpty then
                      let uniq := tainted_params.eraseDups
                      violations ++ [{
                        rule_id := "unsanitized_io"
                        severity := severity
                        file := module_ast.file_path
                        line := func.line + lineno - 1
                        title := "Unsanitized input in '" ++ call_name ++ "()' call"
                        description := "In function '" ++ func.name ++
                          "', parameter(s) " ++ String.intercalate ", " uniq ++
                          " flow directly into '" ++ call_name ++
                          "()' without sanitization. This enables path traversal, command injection, or arbitrary file operations."
                        evidence := [
                          "Function: " ++ orName func,
                          "Dangerous call: " ++ call_name ++ "()",
                          "Tainted parameters: " ++ String.intercalate ", " uniq,
                          "No input validation or sanitization detected"]
                        affected_function := orName func }]
                    else violations
                  else violations
              | _ => violations

/-- Model of `dangerous_eval.check`.  The set `DANGEROUS_FUNCTIONS` is
`{eval, exec, compile, __import__}`. -/
def dangerous_eval_check (pyParse : PyParse) (module_ast : ModuleAST)
    (_call_graph : Option CallGraph) : List RuleViolation :=
  foldOver (allFuncs module_ast) [] fun violations func =>
    if pyStrip func.body_source = "" then violations
    else
      match pyParse func.body_source with
      | none => violations
      | some tree =>
          foldOver (PyNode.pyWalk tree) violations fun violations node =>
            match node with
            | .callExpr f args _ lineno =>
                let call_name := ruleCallNameLast f
                if call_name = "eval" || call_name = "exec" ||
                   call_name = "compile" || call_name = "__import__" then
                  let all_literal := args.all fun a =>
                    match a with
                    | .constantStr _ => true
                    | _ => false
                  if ¬ all_literal || args.isEmpty then
                    violations ++ [{
                      rule_id := "dangerous_eval"
                      severity := .critical
                      file := module_ast.file_path
                      line := func.line + lineno - 1
                      title := "Dangerous '" ++ call_name ++ "()' with non-literal argument"
                      description := "In function '" ++ func.name ++ "', '" ++
                        call_name ++
                        "()' is called with a dynamic (non-literal) argument. This enables arbitrary code execution. An attacker controlling the input can execute any Python code in the process."
                      evidence := [
                        "Function: " ++ orName func,
                        "Dangerous call: " ++ call_name ++ "()",
                        "Argument type: " ++
                          (if args.isEmpty then "no args" else "dynamic expression"),
                        "Non-literal arguments allow arbitrary code execution"]
                      affected_function := orName func }]
                  else violations
                else violations
            | _ => violations

/-- Model of `shared_mutable_state.check`. -/
def shared_mutable_state_check (module_ast : ModuleAST)
    (_call_graph : Option CallGraph) : List RuleViolation :=
  let tables :=
    foldOver module_ast.variable_mutations
      (([] : List (String × Nat)), ([] : List (String × String)))
      fun acc vm =>
        if vm.scope = "module" &&
           (vm.target_type = some "list" || vm.target_type = some "dict" ||
            vm.target_type = some "set") then
          (alistSet acc.1 vm.name vm.line,
           alistSet acc.2 vm.name ((vm.target_type).getD "mutable"))
        else acc
  let mutable_vars := tables.1
  let mutable_types := tables.2
  if mutable_vars.isEmpty then []
  else
    let accessors : List (String × List String) :=
      foldOver (allFuncs module_ast) [] fun acc func =>
        foldOver (func.reads_globals ++ func.writes_globals).eraseDups acc
          fun acc var_name =>
            if alistHas mutable_vars var_name then
              alistPushNew acc var_name (orName func)
            else acc
    foldOver accessors [] fun violations (var_name, func_set) =>
      if func_set.length > 1 then
        let ty := (alistGet mutable_types var_name).getD "mutable"
        let sortedFns := pySorted func_set
        violations ++ [{
          rule_id := "shared_mutable_state"
          severity := .high
          file := module_ast.file_path
          line := (alistGet mutable_vars var_name).getD 0
          title := "Shared mutable state: '" ++ var_name ++ "' accessed by " ++
            toString func_set.length ++ " functions"
          description := "Module-level " ++ ty ++ " '" ++ var_name ++
            "' is accessed by multiple functions: " ++
            String.intercalate ", " sortedFns ++
            ". This creates implicit coupling and is unsafe under concurrent access (threads, async, multiprocessing)."
          evidence := [
            "Variable: " ++ var_name ++ " (type: " ++ ty ++ ")",
            "Accessing functions: " ++ String.intercalate ", " sortedFns,
            "Count: " ++ toString func_set.length ++ " accessors",
            "No encapsulation or thread-safety mechanism detected"]
          affected_function := (sortedFns.head?).getD "" }]
      else violations

/-- Decorator set of `missing_exception_boundary.ENTRY_DECORATORS`. -/
def ENTRY_DECORATORS : List String := [
  "app.route", "app.get", "app.post", "app.put", "app.delete", "app.patch",
  "router.get", "router.post", "router.put", "router.delete", "router.patch",
  "route", "get", "post", "put", "delete", "patch"]

/-- Model of `missing_exception_boundary.check`. -/
def missing_exception_boundary_check (module_ast : ModuleAST)
    (_call_graph : Option CallGraph) : List RuleViolation :=
  foldOver (allFuncs module_ast) [] fun violations func =>
    let entry0 := func.decorators.any (fun d => sToLower d ∈ ENTRY_DECORATORS) ||
      func.name = "main" || func.name = "__main__"
    let is_entry :=
      if ¬ entry0 && func.is_async then
        sStartsWith func.name "handle_" || sStartsWith func.name "on_" ||
        sStartsWith func.name "process_" || sStartsWith func.name "endpoint_"
      else entry0
    if ¬ is_entry then violations
    else if func.has_try_except then violations
    else
      violations ++ [{
        rule_id := "missing_exception_boundary"
        severity := .high
        file := module_ast.file_path
        line := func.line
        title := "Missing exception boundary in entry point '" ++ func.name ++ "'"
        description := "Entry point '" ++ func.name ++
          "' has no try/except block. Unhandled exceptions will propagate to the framework, potentially returning 500 errors with stack traces (information leakage) or crashing background workers."
        evidence := [
          "Function: " ++ orName func,
          "Decorators: " ++
            (if func.decorators.isEmpty then "none" else pyReprList func.decorators),
          "Async: " ++ (if func.is_async then "True" else "False"),
          "No try/except block found in function body"]
        affected_function := orName func }]

/-- Set of `retry_without_backoff.NETWORK_CALLS`. -/
def NETWORK_CALLS : List String := [
  "requests.get", "requests.post", "requests.put", "requests.delete",
  "requests.patch", "requests.head", "requests.request",
  "httpx.get", "httpx.post", "httpx.put", "httpx.delete",
  "httpx.request", "httpx.AsyncClient",
  "aiohttp.ClientSession", "urllib.request.urlopen",
  "client.chat.completions.create",
  "openai.ChatCompletion.create"]

/-- Set of `retry_without_backoff.BACKOFF_INDICATORS`. -/
def BACKOFF_INDICATORS : List String := [
  "time.sleep", "asyncio.sleep", "sleep",
  "backoff", "tenacity", "retry", "exponential_backoff"]

/-- Model of `retry_without_backoff.check`. -/
def retry_without_backoff_check (pyParse : PyParse) (module_ast : ModuleAST)
    (_call_graph : Option CallGraph) : List RuleViolation :=
  foldOver (allFuncs module_ast) [] fun violations func =>
    if pyStrip func.body_source = "" then violations
    else
      match pyParse func.body_source with
      | none => violations
      | some tree =>
          foldOver (PyNode.pyWalk tree) violations fun violations node =>
            let loopInfo : Option (String × Nat) := match node with
              | .forStmt _ _ _ _ lineno => some ("For", lineno)
              | .whileStmt _ _ _ lineno => some ("While", lineno)
              | .asyncForStmt _ _ _ _ lineno => some ("AsyncFor", lineno)
              | _ => none
            match loopInfo with
            | none => violations
            | some (loopName, lineno) =>
                let scan := foldOver (PyNode.pyWalk node) (false, "", false)
                  fun acc child =>
                    match child with
                    | .callExpr f _ _ _ =>
                        let call_name := ruleCallName f
                        let acc :=
                          if call_name ∈ NETWORK_CALLS ||
                             NETWORK_CALLS.any (fun nc => pyContains call_name nc) then
                            (true, call_name, acc.2.2)
                          else acc
                        if call_name ∈ BACKOFF_INDICATORS ||
                           BACKOFF_INDICATORS.any (fun bi => pyContains call_name bi) then
                          (acc.1, acc.2.1, true)
                        else acc
                    | _ => acc
                if scan.1 && ¬ scan.2.2 then
                  violations ++ [{
                    rule_id := "retry_without_backoff"
                    severity := .high
                    file := module_ast.file_path
                    line := func.line + lineno - 1
                    title := "Retry loop without backoff calling '" ++ scan.2.1 ++ "'"
                    description := "In function '" ++ func.name ++
                      "', a loop makes network calls to '" ++ scan.2.1 ++
                      "' without any sleep/backoff logic. On failure, this will immediately retry at full speed, overwhelming the target service and causing cascading failures."
                    evidence := [
                      "Function: " ++ orName func,
                      "Loop type: " ++ loopName,
                      "Network call: " ++ scan.2.1,
                      "No time.sleep(), asyncio.sleep(), or backoff decorator detected"]
                    affected_function := orName func }]
                else violations

/-- Fix-suggestion table of `blocking_io_in_async.BLOCKING_CALLS`. -/
def BLOCKING_CALLS_ASYNC : List (String × String) := [
  ("time.sleep", "Use asyncio.sleep() instead"),
  ("requests.get", "Use httpx.AsyncClient or aiohttp instead"),
  ("requests.post", "Use httpx.AsyncClient or aiohttp instead"),
  ("requests.put", "Use httpx.AsyncClient or aiohttp instead"),
  ("requests.delete", "Use httpx.AsyncClient or aiohttp instead"),
  ("requests.patch", "Use httpx.AsyncClient or aiohttp instead"),
  ("requests.head", "Use httpx.AsyncClient or aiohttp instead"),
  ("requests.request", "Use httpx.AsyncClient or aiohttp instead"),
  ("urllib.request.urlopen", "Use httpx.AsyncClient or aiohttp instead"),
  ("open", "Use aiofiles.open() instead"),
  ("input", "Use aioconsole.ainput() instead"),
  ("os.system", "Use asyncio.create_subprocess_shell() instead"),
  ("subprocess.run", "Use asyncio.create_subprocess_exec() instead"),
  ("subprocess.call", "Use asyncio.create_subprocess_exec() instead"),
  ("subprocess.check_output", "Use asyncio.create_subprocess_exec() instead")]

/-- Model of `blocking_io_in_async.check`. -/
def blocking_io_in_async_check (pyParse : PyParse) (module_ast : ModuleAST)
    (_call_graph : Option CallGraph) : List RuleViolation :=
  let async_funcs :=
    module_ast.functions.filter (·.is_async) ++
    module_ast.classes.flatMap (fun cls => cls.methods.filter (·.is_async))
  foldOver async_funcs [] fun violations func =>
    if pyStrip func.body_source = "" then violations
    else
      match pyParse func.body_source with
      | none => violations
      | some tree =>
          foldOver (PyNode.pyWalk tree) violations fun violations node =>
            match node with
            | .callExpr f _ _ lineno =>
                let call_name := ruleCallName f
                match alistGet BLOCKING_CALLS_ASYNC call_name with
                | some fix_suggestion =>
                    violations ++ [{
                      rule_id := "blocking_io_in_async"
                      severity := .high
                      file := module_ast.file_path
                      line := func.line + lineno - 1
                      title := "Blocking '" ++ call_name ++
                        "()' inside async function '" ++ func.name ++ "'"
                      description := "'" ++ call_name ++
                        "()' is a synchronous blocking call used inside async function '" ++
                        func.name ++
                        "'. This blocks the entire event loop, stalling all concurrent coroutines. Fix: " ++
                        fix_suggestion
                      evidence := [
                        "Async function: " ++ orName func,
                        "Blocking call: " ++ call_name ++ "()",
                        "Fix: " ++ fix_suggestion,
                        "Blocks event loop for all concurrent tasks"]
                      affected_function := orName func }]
                | none => violations
            | _ => violations

/-- Set of `missing_http_timeout.HTTP_CALLS`. -/
def HTTP_CALLS : List String := [
  "requests.get", "requests.post", "requests.put", "requests.delete",
  "requests.patch", "requests.head", "requests.request",
  "httpx.get", "httpx.post", "httpx.put", "httpx.delete",
  "httpx.patch", "httpx.head", "httpx.request",
  "urllib.request.urlopen",
  "aiohttp.ClientSession.get", "aiohttp.ClientSession.post"]

/-- Model of `missing_http_timeout.check` (defined in the rules package but
not reachable from the default `RULE_REGISTRY`). -/
def missing_http_timeout_check (pyParse : PyParse) (module_ast : ModuleAST)
    (_call_graph : Option CallGraph) : List RuleViolation :=
  foldOver (allFuncs module_ast) [] fun violations func =>
    let body := pyStrip func.body_source
    if body = "" then violations
    else
      match pyParse body with
      | none => violations
      | some tree =>
          foldOver (PyNode.pyWalk tree) violations fun violations node =>
            match node with
            | .callExpr f _ keywords lineno =>
                let call_name := ruleCallName f
                if call_name ∈ HTTP_CALLS then
                  let has_timeout := keywords.any fun kv => kv.1 = some "timeout"
                  if ¬ has_timeout then
                    violations ++ [{
                      rule_id := "missing_http_timeout"
                      severity := .high
                      file := module_ast.file_path
                      line := func.line + lineno - 1
                      title := "Missing timeout in '" ++ call_name ++
                        "()' inside '" ++ func.name ++ "'"
                      description := "'" ++ call_name ++ "()' in function '" ++
                        func.name ++
                        "' has no timeout parameter. Without a timeout, the call will hang indefinitely if the remote server doesn't respond, blocking the thread/coroutine and eventually exhausting process resources."
                      evidence := [
                        "Function: " ++ orName func,
                        "HTTP call: " ++ call_name ++ "()",
                        "No timeout= parameter specified",
                        "Fix: Add timeout=10 (or appropriate value) to the call"]
                      affected_function := orName func
                      metadata := [("failure_class", "resource_exhaustion")] }]
                  else violations
                else violations
            | _ => violations

/-! ## Rule engine (`app/core/rule_engine.py`) -/

/-- A Python exception value (type name and message). -/
structure PyExn where
  typeName : String
  msg : String
deriving Repr, DecidableEq

/-- A rule check as the engine sees it: it may raise (`Except.error`). -/
abbrev RuleCheck := ModuleAST → Option CallGraph → Except PyExn (List RuleViolation)

/-- The default rule registry (`rule_engine.RULE_REGISTRY`): the eight rule
modules the engine imports, keyed by their `RULE_ID`, in source order.  The
translated checks are total, so each is wrapped in `Except.ok`. -/
def RULE_REGISTRY (pyParse : PyParse) : List (String × RuleCheck) := [
  ("race_condition", fun m g => .ok (race_condition_check m g)),
  ("missing_await", fun m g => .ok (missing_await_check m g)),
  ("unsanitized_io", fun m g => .ok (unsanitized_io_check pyParse m g)),
  ("dangerous_eval", fun m g => .ok (dangerous_eval_check pyParse m g)),
  ("shared_mutable_state", fun m g => .ok (shared_mutable_state_check m g)),
  ("missing_exception_boundary", fun m g => .ok (missing_exception_boundary_check m g)),
  ("retry_without_backoff", fun m g => .ok (retry_without_backoff_check pyParse m g)),
  ("blocking_io_in_async", fun m g => .ok (blocking_io_in_async_check pyParse m g))]

/-- The `try`/`except` body of `RuleEngine.run` for one rule on one module:
the rule's violations, or — when the check raises — the single low-severity
"internal error" violation built from the exception. -/
def runOneRule (rc : String × RuleCheck) (file_path : String) (m : ModuleAST)
    (call_graph : Option CallGraph) : List RuleViolation :=
  match rc.2 m call_graph with
  | .ok violations => violations
  | .error e => [{
      rule_id := rc.1
      severity := .low
      file := file_path
      line := 0
      title := "Rule '" ++ rc.1 ++ "' internal error"
      description := "Rule execution failed: " ++ e.msg
      evidence := ["Exception: " ++ e.typeName ++ ": " ++ e.msg] }]

/-- Model of `RuleEngine.run`: every rule over every module, a raising rule
converted into one low-severity violation.  `scan_duration_ms` is wall-clock
time in the source and `0` here. -/
def ruleEngineRun (rules : List (String × RuleCheck))
    (modules : List (String × ModuleAST)) (call_graph : Option CallGraph) :
    RuleResult :=
  let acc := foldOver rules (([] : List RuleViolation), ([] : List String))
    fun acc rc =>
      (foldOver modules acc.1 fun vs fm =>
        vs ++ runOneRule rc fm.1 fm.2 call_graph,
       acc.2 ++ [rc.1])
  { violations := acc.1
    rules_executed := acc.2
    total_files_scanned := modules.length
    scan_duration_ms := 0 }

/-! ## Risk scorer (`app/core/risk_scorer.py`)

Machine floats become exact rationals; the decimal literals of the source
(`0.2`, `0.3`, `2.0`) are exact in `ℚ`. -/

/-- A per-violation contribution (`risk_models.ViolationContribution`). -/
structure ViolationContribution where
  rule_id : String
  severity : String
  file : String
  line : Nat
  base_weight : Int
  blast_radius_factor : ℚ
  state_mutation_factor : ℚ
  test_failure_factor : ℚ
  async_boundary_factor : ℚ
  total_factor : ℚ
  weighted_score : ℚ
deriving Repr, DecidableEq

/-- The risk breakdown (`risk_models.RiskBreakdown`). -/
structure RiskBreakdown where
  total_score : Int
  max_possible_score : ℚ := 0
  violation_contributions : List ViolationContribution := []
  formula : String := "risk = Σ(base_weight × factors) / max_possible × 100"
  summary : String := ""
deriving Repr, DecidableEq

/-- The normalisation base: `call_graph.get_max_depth() if call_graph else 1`,
then forced to `1` when zero. -/
def effectiveMaxDepth (call_graph : Option CallGraph) : Nat :=
  let d := match call_graph with
    | some g => g.get_max_depth
    | none => 1
  if d = 0 then 1 else d

/-- Blast radius of one violation as the scorer computes it: nonzero only
when a graph is present, the violation carries a (truthy) node id, and that
id is a node of the graph. -/
def violationBlastRadius (call_graph : Option CallGraph) (v : RuleViolation) :
    Nat :=
  match call_graph with
  | some g =>
      if v.graph_node_id ≠ "" && alistHas g.nodes v.graph_node_id then
        g.get_blast_radius v.graph_node_id
      else 0
  | none => 0

/-- The four additive factors of one violation, in source order:
blast radius, state mutation, test failure, async boundary. -/
def violationFactors (call_graph : Option CallGraph)
    (test_failures : List String) (max_graph_depth : Nat) (v : RuleViolation) :
    ℚ × ℚ × ℚ × ℚ :=
  let blast_radius := violationBlastRadius call_graph v
  let blast_factor : ℚ :=
    if max_graph_depth > 0 then
      0.3 * ((blast_radius : ℚ) / (max_graph_depth : ℚ))
    else 0
  let state_mutation : ℚ :=
    if v.rule_id = "shared_mutable_state" || v.rule_id = "race_condition" ||
       v.rule_id = "cross_module_mutation" then 0.2 else 0.0
  let test_factor : ℚ := if v.rule_id ∈ test_failures then 0.3 else 0.0
  let async_factor : ℚ :=
    if v.rule_id = "missing_await" || v.rule_id = "blocking_io_in_async" ||
       v.rule_id = "race_condition" then 0.2 else 0.0
  (blast_factor, state_mutation, test_factor, async_factor)

/-- One violation's weighted score, `base_weight × total_factor`. -/
def violationWeighted (call_graph : Option CallGraph)
    (test_failures : List String) (max_graph_depth : Nat) (v : RuleViolation) :
    ℚ :=
  let f := violationFactors call_graph test_failures max_graph_depth v
  (SEVERITY_WEIGHTS v.severity : ℚ) * (1.0 + f.1 + f.2.1 + f.2.2.1 + f.2.2.2)

/-- The accumulated `total_weighted` of the scorer's loop. -/
def totalWeightedScore (call_graph : Option CallGraph)
    (test_failures : List String) (max_graph_depth : Nat)
    (violations : List RuleViolation) : ℚ :=
  foldOver violations 0 fun acc v =>
    acc + violationWeighted call_graph test_failures max_graph_depth v

/-- Model of `compute_risk_score`. -/
def compute_risk_score (rule_result : RuleResult)
    (call_graph : Option CallGraph) (test_failure_rule_ids : List String) :
    RiskBreakdown :=
  let test_failures := test_failure_rule_ids
  let violations := rule_result.violations
  if violations.isEmpty then
    { total_score := 0, max_possible_score := 0.0,
      violation_contributions := [],
      summary := "No violations detected. Risk score is 0." }
  else
    let max_graph_depth := effectiveMaxDepth call_graph
    let contributions := violations.map fun v =>
      let base_weight := SEVERITY_WEIGHTS v.severity
      let f := violationFactors call_graph test_failures max_graph_depth v
      let total_factor : ℚ := 1.0 + f.1 + f.2.1 + f.2.2.1 + f.2.2.2
      ({ rule_id := v.rule_id
         severity := v.severity.value
         file := v.file
         line := v.line
         base_weight := base_weight
         blast_radius_factor := pythonRound4 f.1
         state_mutation_factor := pythonRound4 f.2.1
         test_failure_factor := pythonRound4 f.2.2.1
         async_boundary_factor := pythonRound4 f.2.2.2
         total_factor := pythonRound4 total_factor
         weighted_score := pythonRound4 ((base_weight : ℚ) * total_factor) } :
        ViolationContribution)
    let total_weighted :=
      totalWeightedScore call_graph test_failures max_graph_depth violations
    let max_possible0 : ℚ := (violations.length : ℚ) * 10 * 2.0
    let max_possible := if max_possible0 = 0 then 1 else max_possible0
    let raw_score := (total_weighted / max_possible) * 100
    let final_score : Int := min 100 (max 0 (pythonRound raw_score))
    let critical_count := (violations.filter (fun v => v.severity = .critical)).length
    let high_count := (violations.filter (fun v => v.severity = .high)).length
    let medium_count := (violations.filter (fun v => v.severity = .medium)).length
    let low_count := (violations.filter (fun v => v.severity = .low)).length
    let summary_parts :=
      (if critical_count ≠ 0 then [toString critical_count ++ " critical"] else []) ++
      (if high_count ≠ 0 then [toString high_count ++ " high"] else []) ++
      (if medium_count ≠ 0 then [toString medium_count ++ " medium"] else []) ++
      (if low_count ≠ 0 then [toString low_count ++ " low"] else [])
    { total_score := final_score
      max_possible_score := pythonRound2 max_possible
      violation_contributions := contributions
      summary := "Risk score " ++ toString final_score ++ "/100 based on " ++
        toString violations.length ++ " violations (" ++
        String.intercalate ", " summary_parts ++
        "). Weighted by blast radius, state mutation impact, test failures, and async boundary crossings." }

/-! ## Rescanner (`app/engine/rescan.py`) -/

/-- Result of re-scanning patched code (`rescan.RescanResult`). -/
structure RescanResult where
  passed : Bool := false
  target_rule_eliminated : Bool := false
  new_violations_introduced : List String := []
  risk_score_before : Int := 0
  risk_score_after : Int := 0
  risk_increased : Bool := false
  details : String := ""
deriving Repr, DecidableEq

/-- Model of `rescan_patched_source` with the default engine (the caller in
the pipeline passes no engine).  The `try` around `parse_file` is dead in the
model: the translated `parse_file` is total (a syntax error is recorded on
the `ModuleAST`, not raised). -/
def rescan_patched_source (pyParse : PyParse)
    (patched_source file_path target_rule_id : String)
    (original_risk_score : Int) : RescanResult :=
  let module_ast := parse_file pyParse patched_source file_path
  let rule_result :=
    ruleEngineRun (RULE_REGISTRY pyParse) [(file_path, module_ast)] none
  let remaining_target :=
    rule_result.violations.filter (fun v => v.rule_id = target_rule_id)
  let target_rule_eliminated := remaining_target.isEmpty
  let details0 :=
    if ¬ target_rule_eliminated then
      "Target rule '" ++ target_rule_id ++ "' still present after patch (" ++
        toString remaining_target.length ++ " violation(s) remaining)"
    else ""
  let new_critical_high := rule_result.violations.filter fun v =>
    v.rule_id ≠ target_rule_id &&
    (v.severity = .critical || v.severity = .high)
  let new_violations_introduced :=
    new_critical_high.map (fun v => v.rule_id ++ ": " ++ v.title)
  let risk_breakdown := compute_risk_score rule_result none []
  let risk_score_after := risk_breakdown.total_score
  let risk_increased := risk_score_after > original_risk_score
  let passed := target_rule_eliminated && new_violations_introduced.isEmpty &&
    ¬ risk_increased
  let details :=
    if passed then
      "Re-scan passed: rule '" ++ target_rule_id ++ "' eliminated, risk " ++
        toString original_risk_score ++ " → " ++ toString risk_score_after
    else if details0 ≠ "" then details0
    else
      let parts :=
        (if ¬ target_rule_eliminated then ["target rule not eliminated"] else []) ++
        (if ¬ new_violations_introduced.isEmpty then
          [toString new_violations_introduced.length ++ " new critical/high violations"]
         else []) ++
        (if risk_increased then
          ["risk increased " ++ toString original_risk_score ++ " → " ++
            toString risk_score_after]
         else [])
      "Re-scan failed: " ++ String.intercalate "; " parts
  { passed := passed
    target_rule_eliminated := target_rule_eliminated
    new_violations_introduced := new_violations_introduced
    risk_score_before := original_risk_score
    risk_score_after := risk_score_after
    risk_increased := risk_increased
    details := details }

/-! ## Structural validator (`app/engine/ast_validator.py`) -/

/-- Set of `ast_validator.FORBIDDEN_IMPORTS`. -/
def FORBIDDEN_IMPORTS : List String := [
  "os.system", "subprocess", "eval", "exec", "compile",
  "__import__", "importlib", "ctypes", "pickle"]

/-- Set of `ast_validator.BLOCKING_CALLS` (the validator's own set, distinct
from the blocking-io rule's). -/
def VALIDATOR_BLOCKING_CALLS : List String := [
  "time.sleep", "requests.get", "requests.post", "requests.put",
  "requests.delete", "requests.patch", "requests.head",
  "open", "input", "os.system", "subprocess.run",
  "subprocess.call", "subprocess.check_output"]

/-- Validation verdict (`ast_validator.ValidationVerdict`). -/
structure ValidationVerdict where
  valid : Bool := true
  errors : List String := []
deriving Repr, DecidableEq

/-- Model of `ValidationVerdict.add_error`. -/
def ValidationVerdict.add_error (v : ValidationVerdict) (e : String) :
    ValidationVerdict :=
  { valid := false, errors := v.errors ++ [e] }

/-- Model of `ast_validator._get_function_names` (a set; first-occurrence
order). -/
def get_function_names (tree : PyNode) : List String :=
  foldOver (PyNode.pyWalk tree) [] fun s n =>
    match n with
    | .functionDef name _ _ _ _ _ _ => setAdd s name
    | .asyncFunctionDef name _ _ _ _ _ _ => setAdd s name
    | _ => s

/-- Model of `ast_validator._find_function`: the first function node of the
walk with the given name. -/
def find_function (tree : PyNode) (name : String) : Option PyNode :=
  (PyNode.pyWalk tree).find? fun n =>
    match n with
    | .functionDef nm _ _ _ _ _ _ => nm = name
    | .asyncFunctionDef nm _ _ _ _ _ _ => nm = name
    | _ => false

/-- Model of `ast_validator._attr_to_str`. -/
def attr_to_str (value : PyNode) (attr : String) : String :=
  match value with
  | .nameExpr id _ => id ++ "." ++ attr
  | .attributeExpr v a _ => attr_to_str v a ++ "." ++ attr
  | _ => attr

/-- Model of `ast_validator._get_decorator_names`. -/
def get_decorator_names (decorators : List (Nat × PyNode)) : List String :=
  foldOver decorators [] fun acc d =>
    match d.2 with
    | .nameExpr id _ => acc ++ [id]
    | .attributeExpr v a _ => acc ++ [attr_to_str v a]
    | .callExpr (.nameExpr id _) _ _ _ => acc ++ [id]
    | .callExpr (.attributeExpr v a _) _ _ _ => acc ++ [attr_to_str v a]
    | _ => acc

/-- Model of `ast_validator._is_route_decorator`. -/
def is_route_decorator (name : String) : Bool :=
  (sSplitOn (sToLower name) ".").any fun part =>
    part = "route" || part = "get" || part = "post" || part = "put" ||
    part = "delete" || part = "patch" || part = "head"

/-- Model of `ast_validator._count_global_statements`. -/
def count_global_statements (tree : PyNode) : Nat :=
  ((PyNode.pyWalk tree).filter fun n =>
    match n with
    | .globalStmt _ _ => true
    | _ => false).length

/-- Model of `ast_validator._get_imports` (a set; first-occurrence order). -/
def get_imports (tree : PyNode) : List String :=
  foldOver (PyNode.pyWalk tree) [] fun s n =>
    match n with
    | .importStmt aliases _ =>
        foldOver aliases s fun s a => setAdd s a.1
    | .importFrom module? _ _ =>
        match module? with
        | some m => if m ≠ "" then setAdd s m else s
        | none => s
    | _ => s

/-- Model of `ast_validator._find_blocking_calls`. -/
def find_blocking_calls (func_node : PyNode) : List String :=
  foldOver (PyNode.pyWalk func_node) [] fun acc n =>
    match n with
    | .callExpr f _ _ _ =>
        let name := ruleCallName f
        if name ∈ VALIDATOR_BLOCKING_CALLS then acc ++ [name] else acc
    | _ => acc

/-- Model of `ast_validator._count_return_statements`. -/
def count_return_statements (func_node : PyNode) : Nat :=
  ((PyNode.pyWalk func_node).filter fun n =>
    match n with
    | .returnStmt _ _ => true
    | _ => false).length

/-- Model of `ast_validator._count_exception_handlers`. -/
def count_exception_handlers (func_node : PyNode) : Nat :=
  ((PyNode.pyWalk func_node).filter fun n =>
    match n with
    | .exceptHandler _ _ _ _ => true
    | _ => false).length

/-- Decorator list of a function node (empty for non-function nodes). -/
def nodeDecorators : PyNode → List (Nat × PyNode)
  | .functionDef _ _ _ decorators _ _ _ => decorators
  | .asyncFunctionDef _ _ _ decorators _ _ _ => decorators
  | _ => []

/-- Check 2 of `validate_patch_ast`: the target function still exists. -/
def check_target_function (original_tree patched_tree : PyNode)
    (target_function : String) (verdict : ValidationVerdict) : ValidationVerdict :=
  let original_funcs := get_function_names original_tree
  let patched_funcs := get_function_names patched_tree
  if target_function ∈ original_funcs && target_function ∉ patched_funcs then
    verdict.add_error ("Function '" ++ target_function ++
      "' was renamed or removed in patch")
  else verdict

/-- Check 3 of `validate_patch_ast`: route decorators survive. -/
def check_route_decorators (patched_tree : PyNode) (target_function : String)
    (original_decorators : List String) (verdict : ValidationVerdict) :
    ValidationVerdict :=
  if ¬ original_decorators.isEmpty then
    match find_function patched_tree target_function with
    | some patched_func_node =>
        let patched_decs := get_decorator_names (nodeDecorators patched_func_node)
        foldOver original_decorators verdict fun verdict orig_dec =>
          if is_route_decorator orig_dec && orig_dec ∉ patched_decs then
            verdict.add_error ("Route decorator '" ++ orig_dec ++
              "' was modified or removed")
          else verdict
    | none => verdict
  else verdict

/-- Check 4 of `validate_patch_ast`: no new `global` statements. -/
def check_globals (original_tree patched_tree : PyNode)
    (verdict : ValidationVerdict) : ValidationVerdict :=
  let original_globals := count_global_statements original_tree
  let patched_globals := count_global_statements patched_tree
  if patched_globals > original_globals then
    verdict.add_error ("Patch introduces " ++
      toString (patched_globals - original_globals) ++
      " new global statement(s)")
  else verdict

/-- Check 5 of `validate_patch_ast`: no newly-introduced forbidden import. -/
def check_forbidden_imports (original_tree patched_tree : PyNode)
    (verdict : ValidationVerdict) : ValidationVerdict :=
  let original_imports := get_imports original_tree
  let patched_imports := get_imports patched_tree
  let new_imports := patched_imports.filter (· ∉ original_imports)
  foldOver new_imports verdict fun verdict imp =>
    foldOver FORBIDDEN_IMPORTS verdict fun verdict forbidden =>
      if pyContains imp forbidden then
        verdict.add_error ("Patch adds forbidden import: '" ++ imp ++ "'")
      else verdict

/-- Check 6 of `validate_patch_ast`: no blocking call in an async target. -/
def check_blocking_calls (patched_tree : PyNode) (target_function : String)
    (is_async : Bool) (verdict : ValidationVerdict) : ValidationVerdict :=
  if is_async then
    match find_function patched_tree target_function with
    | some patched_func_node =>
        let blocking := find_blocking_calls patched_func_node
        if ¬ blocking.isEmpty then
          verdict.add_error
            ("Patch introduces blocking calls in async function: " ++
              pyReprList blocking)
        else verdict
    | none => verdict
  else verdict

/-- Check 7 of `validate_patch_ast`: return statements and exception
handlers of the target do not decrease. -/
def check_critical_lines (original_tree patched_tree : PyNode)
    (target_function : String) (verdict : ValidationVerdict) :
    ValidationVerdict :=
  match find_function original_tree target_function,
        find_function patched_tree target_function with
  | some original_func, some patched_func =>
      let orig_returns := count_return_statements original_func
      let patched_returns := count_return_statements patched_func
      let verdict :=
        if patched_returns < orig_returns then
          verdict.add_error ("Patch removes " ++
            toString (orig_returns - patched_returns) ++
            " return statement(s)")
        else verdict
      let orig_handlers := count_exception_handlers original_func
      let patched_handlers := count_exception_handlers patched_func
      if patched_handlers < orig_handlers then
        verdict.add_error ("Patch removes " ++
          toString (orig_handlers - patched_handlers) ++
          " exception handler(s)")
      else verdict
  | _, _ => verdict

/-- Model of `validate_patch_ast`: the seven structural checks, in source
order.  The interpolated `SyntaxError` text of check 1 is modelled by a
fixed marker; an unparseable original returns the verdict as-is (valid). -/
def validate_patch_ast (pyParse : PyParse)
    (original_source patched_source target_function : String)
    (is_async : Bool) (original_decorators : List String) : ValidationVerdict :=
  let verdict : ValidationVerdict := {}
  match pyParse patched_source with
  | none => verdict.add_error "Patched code has syntax error: SyntaxError"
  | some patched_tree =>
    match pyParse original_source with
    | none => verdict
    | some original_tree =>
      let verdict := check_target_function original_tree patched_tree
        target_function verdict
      let verdict := check_route_decorators patched_tree target_function
        original_decorators verdict
      let verdict := check_globals original_tree patched_tree verdict
      let verdict := check_forbidden_imports original_tree patched_tree verdict
      let verdict := check_blocking_calls patched_tree target_function
        is_async verdict
      check_critical_lines original_tree patched_tree target_function verdict

/-! ## Patch appliers (`app/engine/patch_applier.py`) -/

/-- Leading-whitespace prefix of a line:
`line[: len(line) - len(line.lstrip())]`. -/
def leadingWhitespace (l : String) : String :=
  l.take (l.length - (pyLstrip l).length)

/-- The final guard both appliers share: return the patched text only when
it re-parses (`ast.parse(patched)` raising `SyntaxError` gives `None`). -/
def checkedResult (pyParse : PyParse) (patched : String) : Option String :=
  match pyParse patched with
  | none => none
  | some _ => some patched

/-- Model of `apply_function_patch`: replace the (first) function of the
given name, re-indenting the replacement to the original function's
indentation; `none` when the source does not parse, the function is absent,
or the result does not parse. -/
def apply_function_patch (pyParse : PyParse)
    (source target_function new_function_code : String) : Option String :=
  match pyParse source with
  | none => none
  | some tree =>
    let lines := pySplitlinesKeep source
    match find_function tree target_function with
    | none => none
    | some func_node =>
        let lineno := match func_node with
          | .functionDef _ _ _ _ _ l _ => l
          | .asyncFunctionDef _ _ _ _ _ l _ => l
          | _ => 0
        let end_line := match func_node with
          | .functionDef _ _ _ _ _ _ e => e
          | .asyncFunctionDef _ _ _ _ _ _ e => e
          | _ => 0
        let start_line := match nodeDecorators func_node with
          | [] => lineno
          | d :: _ => d.1
        let original_indent :=
          if start_line ≤ lines.length then
            leadingWhitespace (lines.getD (start_line - 1) "")
          else ""
        let dedented_new := pyDedent new_function_code
        let indented_new :=
          if original_indent ≠ "" then
            pyIndent (pyStrip dedented_new) original_indent
          else pyStrip dedented_new
        let indented_new :=
          if ¬ sEndsWith indented_new "\n" then indented_new ++ "\n"
          else indented_new
        let before := lines.take (start_line - 1)
        let after := lines.drop end_line
        let patched_source := String.join before ++ indented_new ++ String.join after
        checkedResult pyParse patched_source

/-- Model of `apply_line_range_patch`: replace an inclusive 1-indexed line
range.  Out-of-range or inverted bounds give `none` before any indexing. -/
def apply_line_range_patch (pyParse : PyParse) (source : String)
    (start_line end_line : Int) (new_code : String) : Option String :=
  let lines := pySplitlinesKeep source
  if start_line < 1 || end_line > (lines.length : Int) ||
     start_line > end_line then none
  else
    let original_line := lines.getD (start_line - 1).toNat ""
    let indent := leadingWhitespace original_line
    let dedented := pyDedent new_code
    let indented := pyIndent (pyStrip dedented) indent
    let indented := if ¬ sEndsWith indented "\n" then indented ++ "\n" else indented
    let before := lines.take (start_line - 1).toNat
    let after := lines.drop end_line.toNat
    let patched := String.join before ++ indented ++ String.join after
    checkedResult pyParse patched

/-- Model of `pipeline._extract_function_source`: the source lines of the
(first) function of the given name, decorators included. -/
def extract_function_source (pyParse : PyParse) (source func_name : String) :
    Option String :=
  if func_name = "" then none
  else
    match pyParse source with
    | none => none
    | some tree =>
      let lines := pySplitlines source
      match find_function tree func_name with
      | none => none
      | some node =>
          let lineno := match node with
            | .functionDef _ _ _ _ _ l _ => l
            | .asyncFunctionDef _ _ _ _ _ l _ => l
            | _ => 0
          let endLine := match node with
            | .functionDef _ _ _ _ _ _ e => e
            | .asyncFunctionDef _ _ _ _ _ _ e => e
            | _ => 0
          let start := match nodeDecorators node with
            | [] => lineno - 1
            | d :: _ => d.1 - 1
          some (String.intercalate "\n" ((lines.drop start).take (endLine - start)))

/-! ## Call graph builder (`app/core/call_graph.py`) -/

/-- Model of `_make_node_id`. -/
def make_node_id (module function : String) : String :=
  module ++ "::" ++ function

/-- Model of `call_graph._is_entry_point` (its own decorator set, distinct
from the exception-boundary rule's). -/
def is_entry_point (func_name : String) (decorators : List String) : Bool :=
  if func_name = "main" || func_name = "__main__" then true
  else decorators.any fun d =>
    sToLower d ∈ ([
      "app.route", "app.get", "app.post", "app.put", "app.delete", "app.patch",
      "router.get", "router.post", "router.put", "router.delete", "router.patch",
      "route", "get", "post", "put", "delete"] : List String)

/-- Model of `_module_matches`. -/
def module_matches (module_name file_path : String) : Bool :=
  let normalized :=
    sReplace (sReplace (sReplace file_path "/" ".") "\\" ".") ".py" ""
  pyContains normalized module_name || sEndsWith normalized module_name

/-- Model of `_resolve_callee`. -/
def resolve_callee (call_name current_module : String)
    (name_to_nodes : List (String × List String))
    (import_map : List (String × String))
    (modules : List (String × ModuleAST)) : List String :=
  match alistGet name_to_nodes call_name with
  | some nids =>
      let same_module := nids.filter (fun nid => sStartsWith nid current_module)
      if ¬ same_module.isEmpty then same_module
      else nids.take 1
  | none =>
    if pyContains call_name "." then
      let parts := sSplitOn call_name "."
      let viaImport := match parts.head? with
        | some p0 =>
            match alistGet import_map p0 with
            | some imported_module =>
                match modules.find? (fun pm => module_matches imported_module pm.1) with
                | some pm => some [make_node_id pm.1 ((parts.getLast?).getD "")]
                | none => none
            | none => none
        | none => none
      match viaImport with
      | some ids => ids
      | none =>
          match alistGet name_to_nodes call_name with
          | some nids => nids.take 1
          | none => []
    else []

/-- Phase 1 of `build_call_graph`: nodes and the short-name index. -/
def buildGraphNodes (modules : List (String × ModuleAST)) :
    List (String × CallGraphNode) × List (String × List String) :=
  foldOver modules ([], []) fun acc fm =>
    let module_name := fm.1
    let acc := foldOver fm.2.functions acc fun acc func =>
      let node_id := make_node_id module_name func.name
      (alistSet acc.1 node_id {
          id := node_id, module := module_name, function := func.name,
          is_async := func.is_async,
          is_entry_point := is_entry_point func.name func.decorators,
          reads_shared_state := func.reads_globals,
          writes_shared_state := func.writes_globals,
          line := func.line },
       alistPush acc.2 func.name node_id)
    foldOver fm.2.classes acc fun acc cls =>
      foldOver cls.methods acc fun acc method =>
        let qualified := cls.name ++ "." ++ method.name
        let node_id := make_node_id module_name qualified
        (alistSet acc.1 node_id {
            id := node_id, module := module_name, function := qualified,
            is_async := method.is_async,
            is_entry_point := is_entry_point method.name method.decorators,
            reads_shared_state := method.reads_globals,
            writes_shared_state := method.writes_globals,
            line := method.line },
         alistPush (alistPush acc.2 qualified node_id) method.name node_id)

/-- The per-module import alias map of phase 2. -/
def buildImportMap (imports : List ImportNode) : List (String × String) :=
  foldOver imports [] fun im imp =>
    if imp.is_from_import then
      foldOver imp.names im fun im name => alistSet im name imp.module
    else
      match imp.aliasName with
      | some a => alistSet im a imp.module
      | none => alistSet im imp.module imp.module

/-- Model of `build_call_graph`: phase 1 nodes, phase 2 direct call edges,
phase 3 import edges. -/
def build_call_graph (modules : List (String × ModuleAST)) : CallGraph :=
  let p1 := buildGraphNodes modules
  let nodes := p1.1
  let name_to_nodes := p1.2
  let direct_edges := foldOver modules ([] : List CallGraphEdge) fun edges fm =>
    let module_name := fm.1
    let import_map := buildImportMap fm.2.imports
    foldOver (allFuncs fm.2) edges fun edges func =>
      let caller_name := orName func
      let caller_id := make_node_id module_name caller_name
      match alistGet nodes caller_id with
      | none => edges
      | some caller_node =>
          foldOver func.calls edges fun edges call_name =>
            let callee_ids :=
              resolve_callee call_name module_name name_to_nodes import_map modules
            foldOver callee_ids edges fun edges callee_id =>
              match alistGet nodes callee_id with
              | some callee_node =>
                  edges ++ [{
                    source := caller_id, target := callee_id,
                    call_type := .direct,
                    async_boundary_crossing :=
                      caller_node.is_async != callee_node.is_async }]
              | none => edges
  let import_edges := foldOver modules ([] : List CallGraphEdge) fun edges fm =>
    let module_name := fm.1
    foldOver fm.2.imports edges fun edges imp =>
      if imp.is_from_import then
        foldOver modules edges fun edges tm =>
          if tm.1 = module_name then edges
          else if module_matches imp.module tm.1 then
            foldOver imp.names edges fun edges name =>
              let source_id := make_node_id module_name name
              let target_id := make_node_id tm.1 name
              if alistHas nodes target_id then
                edges ++ [{
                  source :=
                    if alistHas nodes source_id then source_id
                    else make_node_id module_name "__module__",
                  target := target_id,
                  call_type := .importKind,
                  line := imp.line }]
              else edges
          else edges
      else edges
  { nodes := nodes, edges := direct_edges ++ import_edges }

/-! ## Rollback manager (`app/engine/rollback_manager.py`) -/

/-- A source snapshot (`rollback_manager.Snapshot`). -/
structure Snapshot where
  file_path : String
  function_name : String
  original_source : String
deriving Repr, DecidableEq

/-- The rollback manager's `_snapshots` dict. -/
abbrev RollbackState := List (String × Snapshot)

/-- Model of `RollbackManager._key`. -/
def rollback_key (file_path function_name : String) : String :=
  file_path ++ "::" ++ function_name

/-- Model of `RollbackManager.save_snapshot`. -/
def save_snapshot (rb : RollbackState) (file_path function_name source : String) :
    RollbackState :=
  alistSet rb (rollback_key file_path function_name)
    { file_path := file_path, function_name := function_name,
      original_source := source }

/-- Model of `RollbackManager.rollback`: the stored original source, if any
(the snapshot is not removed). -/
def rollback_get (rb : RollbackState) (file_path function_name : String) :
    Option String :=
  (alistGet rb (rollback_key file_path function_name)).map (·.original_source)

/-! ## Patch pipeline (`app/engine/pipeline.py`)

`PatchPipeline.run` / `_process_violation`, with two oracles for the calls
the engine treats as external patch sources: `gen` stands for
`_generate_patch` (the LLM gateway plus the deterministic fallback
templates), keyed by the attempt index, and `review` stands for
`_review_patch`, keyed by the candidate code.  Every theorem below holds for
every behaviour of these oracles. -/

/-- Result of patching one violation (`patch_models.PatchResult`), with the
pydantic defaults (`status = "failed"`, `patched_code = ""`). -/
structure PatchResult where
  rule_id : String
  target_function : String := ""
  file_path : String := ""
  status : String := "failed"
  explanation : String := ""
  original_code : String := ""
  patched_code : String := ""
  validation_errors : List String := []
  risk_score_before : Int := 0
  risk_score_after : Int := 0
  llm_attempts : Nat := 0
  used_fallback : Bool := false
deriving Repr, DecidableEq

/-- A source file submitted for patching (`patch_models.PatchFileInput`). -/
structure PatchFileInput where
  path : String
  content : String
deriving Repr, DecidableEq

/-- Response of a pipeline run (`patch_models.PatchResponse`); the
working-source map is an insertion-ordered dict. -/
structure PatchResponse where
  message : String := "patch_complete"
  results : List PatchResult := []
  total_violations : Nat := 0
  patches_applied : Nat := 0
  patches_rejected : Nat := 0
  patches_rolled_back : Nat := 0
  risk_score_before : Int := 0
  risk_score_after : Int := 0
  patched_sources : List (String × String) := []
deriving Repr, DecidableEq

/-- Pipeline configuration (`PatchPipeline.__init__`): retry cap, review
toggle, and whether an LLM gateway is configured. -/
structure PipelineConfig where
  max_retries : Nat
  review_enabled : Bool
  has_llm_gateway : Bool
deriving Repr, DecidableEq

/-- The `for attempt in range(max_retries + 1)` loop of
`_process_violation`, from patch generation to re-scan.  `fuel` counts the
remaining iterations (initially `max_retries + 1`); the working-source dict
is mutated only by the rollback branch. -/
def attemptLoop (cfg : PipelineConfig) (pyParse : PyParse)
    (gen : Nat → Option String) (review : String → Bool)
    (rule_id file_path func_name source : String) (is_async : Bool)
    (decorators : List String) (original_risk_score : Int)
    (rb : RollbackState) :
    Nat → Nat → PatchResult → List (String × String) →
    PatchResult × List (String × String)
  | 0, _, res, sources =>
      (if res.status ≠ "applied" && res.status ≠ "rollback" &&
          res.status ≠ "rejected" then { res with status := "failed" } else res,
       sources)
  | fuel + 1, attempt, res, sources =>
      let res := { res with llm_attempts := attempt + 1 }
      match gen attempt with
      | none =>
          if attempt < cfg.max_retries then
            attemptLoop cfg pyParse gen review rule_id file_path func_name
              source is_async decorators original_risk_score rb fuel
              (attempt + 1) res sources
          else
            ({ res with
                status := "failed",
                explanation := "All patch generation attempts failed" }, sources)
      | some new_code =>
        match apply_function_patch pyParse source func_name new_code with
        | none =>
            let res := { res with validation_errors := res.validation_errors ++
              ["Patch application failed (function not found or syntax error)"] }
            if attempt < cfg.max_retries then
              attemptLoop cfg pyParse gen review rule_id file_path func_name
                source is_async decorators original_risk_score rb fuel
                (attempt + 1) res sources
            else ({ res with status := "rejected" }, sources)
        | some patched_source =>
          let verdict := validate_patch_ast pyParse source patched_source
            func_name is_async decorators
          if ¬ verdict.valid then
            let res := { res with validation_errors :=
              res.validation_errors ++ verdict.errors }
            if attempt < cfg.max_retries then
              attemptLoop cfg pyParse gen review rule_id file_path func_name
                source is_async decorators original_risk_score rb fuel
                (attempt + 1) res sources
            else ({ res with status := "rejected" }, sources)
          else if cfg.review_enabled && cfg.has_llm_gateway &&
                  attempt < cfg.max_retries && ¬ review new_code then
            attemptLoop cfg pyParse gen review rule_id file_path func_name
              source is_async decorators original_risk_score rb fuel
              (attempt + 1) res sources
          else
            let rescan := rescan_patched_source pyParse patched_source
              file_path rule_id original_risk_score
            let res := { res with risk_score_after := rescan.risk_score_after }
            if rescan.passed then
              ({ res with
                  status := "applied",
                  patched_code := patched_source,
                  explanation := "Patch applied successfully. " ++ rescan.details },
               sources)
            else if rescan.risk_increased then
              let res := { res with
                status := "rollback",
                explanation := "Rolled back: " ++ rescan.details }
              let sources := match rollback_get rb file_path func_name with
                | some original =>
                    if original ≠ "" then alistSet sources file_path original
                    else sources
                | none => sources
              (res, sources)
            else if attempt < cfg.max_retries then
              attemptLoop cfg pyParse gen review rule_id file_path func_name
                source is_async decorators original_risk_score rb fuel
                (attempt + 1) res sources
            else
              ({ res with
                  status := "rejected",
                  explanation := "Re-scan failed after " ++
                    toString (cfg.max_retries + 1) ++ " attempts: " ++
                    rescan.details }, sources)

/-- Model of `PatchPipeline._process_violation`: snapshot, metadata
extraction, then the attempt loop. -/
def process_violation (cfg : PipelineConfig) (pyParse : PyParse)
    (gen : Nat → Option String) (review : String → Bool)
    (violation : RuleViolation) (sources : List (String × String))
    (original_risk_score : Int) (rb : RollbackState) :
    PatchResult × List (String × String) × RollbackState :=
  let file_path := violation.file
  let func_name := violation.affected_function
  let source := (alistGet sources file_path).getD ""
  let res : PatchResult := {
    rule_id := violation.rule_id, target_function := func_name,
    file_path := file_path, risk_score_before := original_risk_score }
  if source = "" then
    ({ res with
        status := "failed",
        explanation := "Source not found for " ++ file_path }, sources, rb)
  else
    let rb := save_snapshot rb file_path func_name source
    let func_source := match extract_function_source pyParse source func_name with
      | some s => if s ≠ "" then s else source
      | none => source
    let res := { res with original_code := func_source }
    let module := parse_file pyParse source file_path
    let fromFuncs := match module.functions.find?
        (fun f => f.name = func_name || f.qualified_name = func_name) with
      | some f => (f.is_async, f.decorators)
      | none => (false, ([] : List String))
    let meta := foldOver module.classes fromFuncs fun acc cls =>
      match cls.methods.find? (fun m => m.name = func_name) with
      | some m => (m.is_async, m.decorators)
      | none => acc
    let out := attemptLoop cfg pyParse gen review violation.rule_id file_path
      func_name source meta.1 meta.2 original_risk_score rb
      (cfg.max_retries + 1) 0 res sources
    (out.1, out.2, rb)

/-- The per-violation step of `PatchPipeline.run`'s loop: process the
violation, then copy an applied patch into the working-source map. -/
def pipelineStep (cfg : PipelineConfig) (pyParse : PyParse)
    (gen : Nat → Option String) (review : String → Bool)
    (violation : RuleViolation) (original_risk_score : Int)
    (sources : List (String × String)) (rb : RollbackState) :
    PatchResult × List (String × String) × RollbackState :=
  let out := process_violation cfg pyParse gen review violation sources
    original_risk_score rb
  let result := out.1
  let s1 := out.2.1
  let s2 :=
    if result.status = "applied" && alistHas s1 result.file_path then
      alistSet s1 result.file_path
        (if result.patched_code ≠ "" then result.patched_code
         else (alistGet s1 result.file_path).getD "")
    else s1
  (result, s2, out.2.2)

/-- Model of `PatchPipeline.run`: parse and analyse, filter violations,
process each in order, then re-score the aggregate working source. -/
def pipeline_run (cfg : PipelineConfig) (pyParse : PyParse)
    (genO : RuleViolation → Nat → Option String)
    (reviewO : RuleViolation → String → Bool)
    (files : List PatchFileInput) (target_rule_ids : Option (List String)) :
    PatchResponse :=
  let modules := foldOver files ([] : List (String × ModuleAST)) fun m f =>
    alistSet m f.path (parse_file pyParse f.content f.path)
  let sources := foldOver files ([] : List (String × String)) fun m f =>
    alistSet m f.path f.content
  let call_graph := build_call_graph modules
  let rule_result := ruleEngineRun (RULE_REGISTRY pyParse) modules (some call_graph)
  let risk_breakdown := compute_risk_score rule_result (some call_graph) []
  let original_risk_score := risk_breakdown.total_score
  let violations := match target_rule_ids with
    | some ids =>
        if ¬ ids.isEmpty then
          rule_result.violations.filter (fun v => v.rule_id ∈ ids)
        else rule_result.violations
    | none => rule_result.violations
  let final := foldOver violations
    (([] : List PatchResult), sources, ([] : RollbackState)) fun acc violation =>
      let out := pipelineStep cfg pyParse (genO violation) (reviewO violation)
        violation original_risk_score acc.2.1 acc.2.2
      (acc.1 ++ [out.1], out.2.1, out.2.2)
  let results := final.1
  let current_sources := final.2.1
  let final_modules := current_sources.map fun ps =>
    (ps.1, parse_file pyParse ps.2 ps.1)
  let final_rule_result := ruleEngineRun (RULE_REGISTRY pyParse) final_modules none
  let final_risk := compute_risk_score final_rule_result none []
  { message := "patch_complete"
    results := results
    total_violations := violations.length
    patches_applied := (results.filter (fun r => r.status = "applied")).length
    patches_rejected := (results.filter (fun r => r.status = "rejected")).length
    patches_rolled_back := (results.filter (fun r => r.status = "rollback")).length
    risk_score_before := original_risk_score
    risk_score_after := final_risk.total_score
    patched_sources := current_sources }

/-- The initial working-source map built by `PatchPipeline.run` from the
request files. -/
def pipelineInitialSources (files : List PatchFileInput) :
    List (String × String) :=
  foldOver files ([] : List (String × String)) fun m f =>
    alistSet m f.path f.content

/-- The module map `PatchPipeline.run` parses from the request files. -/
def pipelineModules (pyParse : PyParse) (files : List PatchFileInput) :
    List (String × ModuleAST) :=
  foldOver files ([] : List (String × ModuleAST)) fun m f =>
    alistSet m f.path (parse_file pyParse f.content f.path)

/-- The original risk score `PatchPipeline.run` computes before patching. -/
def pipelineOriginalScore (pyParse : PyParse) (files : List PatchFileInput) :
    Int :=
  (compute_risk_score
    (ruleEngineRun (RULE_REGISTRY pyParse) (pipelineModules pyParse files)
      (some (build_call_graph (pipelineModules pyParse files))))
    (some (build_call_graph (pipelineModules pyParse files)))
    []).total_score

/-! ## General lemmas -/

/-- Invariants survive `foldOver`. -/
theorem foldOver_invariant {α β : Type} (P : β → Prop) (l : List α) (i : β)
    (f : β → α → β) (h0 : P i) (hstep : ∀ b a, a ∈ l → P b → P (f b a)) :
    P (foldOver l i f) := by
  induction l generalizing i with
  | nil => exact h0
  | cons a as ih =>
      exact ih (f i a) (hstep i a (List.mem_cons_self a as) h0)
        (fun b x hx hb => hstep b x (List.mem_cons_of_mem a hx) hb)

/-- Unfolding `alistGet` on a cons cell. -/
theorem alistGet_cons {α : Type} (p : String × α) (ps : List (String × α))
    (k : String) :
    alistGet (p :: ps) k = if p.1 = k then some p.2 else alistGet ps k := by
  unfold alistGet
  by_cases hp : p.1 = k <;> simp [List.find?, hp]

/-- Unfolding `alistHas` on a cons cell. -/
theorem alistHas_cons {α : Type} (p : String × α) (ps : List (String × α))
    (k : String) :
    alistHas (p :: ps) k = if p.1 = k then true else alistHas ps k := by
  unfold alistHas
  rw [alistGet_cons]
  by_cases hp : p.1 = k <;> simp [hp]

/-- In-place overwrite finds the new value. -/
theorem alistGet_map_set {α : Type} (ps : List (String × α)) (k : String)
    (v : α) (h : alistHas ps k = true) :
    alistGet (ps.map (fun p => if p.1 = k then (k, v) else p)) k = some v := by
  induction ps with
  | nil => simp [alistHas, alistGet] at h
  | cons p ps ih =>
      rw [alistHas_cons] at h
      by_cases hp : p.1 = k
      · simp [alistGet_cons, hp]
      · simp only [List.map_cons, if_neg hp, alistGet_cons, hp, if_false]
        simp only [if_neg hp] at h
        exact ih h

/-- Appending a fresh key finds the new value. -/
theorem alistGet_append_self {α : Type} (ps : List (String × α)) (k : String)
    (v : α) (h : alistHas ps k = false) :
    alistGet (ps ++ [(k, v)]) k = some v := by
  induction ps with
  | nil => simp [alistGet_cons]
  | cons p ps ih =>
      rw [alistHas_cons] at h
      by_cases hp : p.1 = k
      · simp [hp] at h
      · simp only [if_neg hp] at h
        rw [List.cons_append, alistGet_cons, if_neg hp]
        exact ih h

/-- In-place overwrite leaves other keys alone. -/
theorem alistGet_map_set_ne {α : Type} (ps : List (String × α))
    (k k' : String) (v : α) (h : k' ≠ k) :
    alistGet (ps.map (fun p => if p.1 = k then (k, v) else p)) k'
      = alistGet ps k' := by
  induction ps with
  | nil => simp
  | cons p ps ih =>
      by_cases hp : p.1 = k
      · have hk : ¬ ((k, v).1 = k') := fun hk => h hk.symm
        have hpk : ¬ (p.1 = k') := by
          rw [hp]; exact fun hk => h hk.symm
        simp only [List.map_cons, if_pos hp, alistGet_cons, hk, if_false,
          hpk]
        exact ih
      · simp only [List.map_cons, if_neg hp, alistGet_cons]
        by_cases hpk : p.1 = k'
        · simp [hpk]
        · simp only [hpk, if_false]
          exact ih

/-- Appending a fresh key leaves other keys alone. -/
theorem alistGet_append_ne {α : Type} (ps : List (String × α))
    (k k' : String) (v : α) (h : k' ≠ k) :
    alistGet (ps ++ [(k, v)]) k' = alistGet ps k' := by
  induction ps with
  | nil =>
      have hk : ¬ ((k, v).1 = k') := fun hk => h hk.symm
      simp [alistGet_cons, hk, alistGet]
  | cons p ps ih =>
      rw [List.cons_append, alistGet_cons, alistGet_cons]
      by_cases hpk : p.1 = k'
      · simp [hpk]
      · simp only [hpk, if_false]
        exact ih

/-- Looking up the key just set. -/
theorem alistGet_set_self {α : Type} (m : List (String × α)) (k : String)
    (v : α) : alistGet (alistSet m k v) k = some v := by
  unfold alistSet
  by_cases h : alistHas m k = true
  · simp only [h, if_true]
    exact alistGet_map_set m k v h
  · simp only [h, if_false]
    exact alistGet_append_self m k v (by simpa using h)

/-- Looking up another key after a set. -/
theorem alistGet_set_ne {α : Type} (m : List (String × α)) (k k' : String)
    (v : α) (h : k' ≠ k) : alistGet (alistSet m k v) k' = alistGet m k' := by
  unfold alistSet
  by_cases hh : alistHas m k = true
  · simp only [hh, if_true]
    exact alistGet_map_set_ne m k k' v h
  · simp only [hh, if_false]
    exact alistGet_append_ne m k k' v h

/-! ## Claim C10 — `apply_line_range_patch` boundary totality -/

set_option maxHeartbeats 1000000 in
/-- C10: for every source and every line range with `start_line < 1`,
`end_line` beyond the last line, or `start_line > end_line`,
`apply_line_range_patch` returns `none` (no exception, no out-of-range
slice: inside the guarded branch the index is in range), and every `some`
result parses. -/
theorem c10_apply_line_range_total (pyParse : PyParse)
    (source new_code : String) (start_line end_line : Int) :
    ((start_line < 1 ∨ end_line > ((pySplitlinesKeep source).length : Int) ∨
        start_line > end_line) →
      apply_line_range_patch pyParse source start_line end_line new_code = none)
    ∧ (¬ (start_line < 1 ∨ end_line > ((pySplitlinesKeep source).length : Int) ∨
          start_line > end_line) →
        (start_line - 1).toNat < (pySplitlinesKeep source).length)
    ∧ (∀ p, apply_line_range_patch pyParse source start_line end_line new_code
          = some p → (pyParse p).isSome = true) := by
  refine ⟨?_, ?_, ?_⟩
  · intro h
    unfold apply_line_range_patch
    have hc : (decide (start_line < 1) ||
        decide (end_line > ((pySplitlinesKeep source).length : Int)) ||
        decide (start_line > end_line)) = true := by
      rcases h with h | h | h <;> simp [h]
    simp only [hc, if_true]
  · intro h
    push_neg at h
    omega
  · intro p hp
    simp only [apply_line_range_patch] at hp
    split at hp
    · simp at hp
    · unfold checkedResult at hp
      split at hp
      · simp at hp
      · rename_i t heq
        injection hp with hp
        subst hp
        rw [heq]
        rfl


/-! ## Claim C4 — the rescan verdict -/

/-- C4: a rescan's `passed` verdict holds iff the target rule has zero
remaining violations in the re-run, no critical/high violation with a
different rule id is present in the re-run, and the new risk score does not
exceed the original. -/
theorem c4_rescan_passed_iff (pyParse : PyParse)
    (patched_source file_path target_rule_id : String)
    (original_risk_score : Int) :
    (rescan_patched_source pyParse patched_source file_path target_rule_id
        original_risk_score).passed = true ↔
      ((ruleEngineRun (RULE_REGISTRY pyParse)
          [(file_path, parse_file pyParse patched_source file_path)]
          none).violations.filter
            (fun v => v.rule_id = target_rule_id) = [] ∧
       (ruleEngineRun (RULE_REGISTRY pyParse)
          [(file_path, parse_file pyParse patched_source file_path)]
          none).violations.filter
            (fun v => v.rule_id ≠ target_rule_id &&
              (v.severity = .critical || v.severity = .high)) = [] ∧
       (rescan_patched_source pyParse patched_source file_path target_rule_id
          original_risk_score).risk_score_after ≤ original_risk_score) := by
  unfold rescan_patched_source
  simp only [Bool.and_eq_true, Bool.not_eq_true', decide_eq_false_iff_not,
    not_lt, List.isEmpty_iff, List.map_eq_nil_iff]
  simp only [decide_eq_true_eq, and_assoc]

/-! ## Claim C9 — rule-failure isolation -/

/-- The engine's violation list is the concatenation, in registry order, of
each rule's per-module outcomes. -/
theorem ruleEngineRun_violations (rules : List (String × RuleCheck))
    (modules : List (String × ModuleAST)) (g : Option CallGraph) :
    (ruleEngineRun rules modules g).violations
      = rules.flatMap (fun rc =>
          modules.flatMap (fun fm => runOneRule rc fm.1 fm.2 g)) := by
  unfold ruleEngineRun
  have hmod : ∀ (rc : String × RuleCheck) (vs : List RuleViolation),
      foldOver modules vs (fun vs fm => vs ++ runOneRule rc fm.1 fm.2 g)
        = vs ++ modules.flatMap (fun fm => runOneRule rc fm.1 fm.2 g) := by
    intro rc vs
    induction modules generalizing vs with
    | nil => simp [foldOver]
    | cons fm fms ih =>
        simp only [foldOver, List.foldl_cons, List.flatMap_cons] at *
        rw [ih]
        simp [List.append_assoc]
  suffices h : ∀ (acc : List RuleViolation × List String),
      (foldOver rules acc fun acc rc =>
        (foldOver modules acc.1 fun vs fm =>
          vs ++ runOneRule rc fm.1 fm.2 g,
         acc.2 ++ [rc.1])).1
      = acc.1 ++ rules.flatMap (fun rc =>
          modules.flatMap (fun fm => runOneRule rc fm.1 fm.2 g)) by
    simpa using h ([], [])
  intro acc
  induction rules generalizing acc with
  | nil => simp [foldOver]
  | cons rc rcs ih =>
      simp only [foldOver, List.foldl_cons, List.flatMap_cons] at *
      rw [ih, hmod]
      simp [List.append_assoc]

/-- A pure (never-raising) rule check, as the engine registers them. -/
def liftCheck (rc : String × (ModuleAST → Option CallGraph → List RuleViolation)) :
    String × RuleCheck :=
  (rc.1, fun m g => .ok (rc.2 m g))

/-- A rule check that raises the given exception on every input. -/
def raiseCheck (e : PyExn) : RuleCheck := fun _ _ => .error e

/-- C9 counterexample: the internal-error violation's title embeds the rule
id — it is `"Rule 'r' internal error"`, not the claimed `"Rule internal
error"`. -/
theorem c9_counterexample :
    ∃ v, (ruleEngineRun [("r", raiseCheck { typeName := "ValueError", msg := "boom" })]
        [("f.py", { file_path := "f.py" })] none).violations = [v]
      ∧ v.severity = .low
      ∧ v.title = "Rule 'r' internal error"
      ∧ v.title ≠ "Rule internal error" := by
  refine ⟨_, rfl, rfl, rfl, by decide⟩

/-- C9 (amended): when exactly one registered rule raises on a module, the
engine still returns normally; its violation list is every earlier rule's
violations, then a single low-severity violation for the raising rule with
title `"Rule '<rule_id>' internal error"`, then every later rule's
violations. -/
theorem c9_rule_error_isolated
    (pre post : List (String × (ModuleAST → Option CallGraph → List RuleViolation)))
    (id : String) (e : PyExn) (p : String) (m : ModuleAST)
    (g : Option CallGraph) :
    (ruleEngineRun (pre.map liftCheck ++ [(id, raiseCheck e)] ++ post.map liftCheck)
        [(p, m)] g).violations
      = pre.flatMap (fun rc => rc.2 m g)
        ++ [{ rule_id := id, severity := .low, file := p, line := 0,
              title := "Rule '" ++ id ++ "' internal error",
              description := "Rule execution failed: " ++ e.msg,
              evidence := ["Exception: " ++ e.typeName ++ ": " ++ e.msg] }]
        ++ post.flatMap (fun rc => rc.2 m g) := by
  rw [ruleEngineRun_violations]
  simp [List.flatMap_append, List.flatMap_map, runOneRule, liftCheck,
    raiseCheck, Function.comp]

/-! ## Claim C2 — `missing_http_timeout` and the default registry

The concrete scan input of the claim, with its CPython parse tree (the same
tree serves as the parse of the function's `body_source`, which spans the
whole single-line file). -/

/-- The claim's input file: one function performing `requests.get` with no
timeout. -/
def c2Src : String := "def f(): return requests.get(\"https://x\")"

/-- The CPython parse of `c2Src`. -/
def c2Tree : PyNode := .moduleNode [
  .functionDef "f" [] [
    .returnStmt (some (.callExpr
      (.attributeExpr (.nameExpr "requests" .load) "get" .load)
      [.constantStr "https://x"] [] 1)) 1] [] none 1 1]

/-- Parser oracle for the C2 scenario. -/
def c2Parse : PyParse := fun s => if s = c2Src then some c2Tree else none

/-- The parsed module of the C2 scenario. -/
def c2Module : ModuleAST := parse_file c2Parse c2Src "x.py"

/-- C2 evaluated on the failing input: `missing_http_timeout` is not a key
of the default registry, the engine run on the claimed file yields no
violation at all (rather than the claimed single high `missing_http_timeout`
violation), while the unregistered `missing_http_timeout` check itself
would produce exactly that violation. -/
theorem c2_missing_http_timeout_unregistered :
    "missing_http_timeout" ∉ (RULE_REGISTRY c2Parse).map (fun rc => rc.1)
    ∧ (ruleEngineRun (RULE_REGISTRY c2Parse) [("x.py", c2Module)]
        none).violations = []
    ∧ ∃ v, missing_http_timeout_check c2Parse c2Module none = [v]
        ∧ v.rule_id = "missing_http_timeout" ∧ v.severity = .high := by
  refine ⟨by decide, by decide, ⟨_, rfl, rfl, rfl⟩⟩

/-! ## Claim C3 — race condition and `writes_globals`

The claim's module: a module-level mutable list plus two async writers that
declare `global shared_data` and mutate it. -/

/-- The claim's input module source. -/
def c3Src : String :=
  "shared_data = []\n\nasync def add_item(x):\n    global shared_data\n    shared_data.append(x)\n\nasync def clear_items():\n    global shared_data\n    shared_data.clear()"

/-- The CPython parse of `c3Src`. -/
def c3Tree : PyNode := .moduleNode [
  .assign [.nameExpr "shared_data" .store] (.listExpr []) 1,
  .asyncFunctionDef "add_item" [("x", none)] [
    .globalStmt ["shared_data"] 4,
    .exprStmt (.callExpr
      (.attributeExpr (.nameExpr "shared_data" .load) "append" .load)
      [.nameExpr "x" .load] [] 5) 5] [] none 3 5,
  .asyncFunctionDef "clear_items" [] [
    .globalStmt ["shared_data"] 8,
    .exprStmt (.callExpr
      (.attributeExpr (.nameExpr "shared_data" .load) "clear" .load)
      [] [] 9) 9] [] none 7 9]

/-- Parser oracle for the C3 scenario. -/
def c3Parse : PyParse := fun s => if s = c3Src then some c3Tree else none

set_option maxRecDepth 4000 in
/-- C3 evaluated on the failing input: the module records the mutable
module-level list and both async functions, yet their `writes_globals` are
empty (the parser never populates them — `_extract_global_access` is dead
code), so `race_condition.check` produces no violation at all instead of
the claimed single violation naming both writers. -/
theorem c3_race_condition_not_detected :
    race_condition_check (parse_file c3Parse c3Src "m.py") none = []
    ∧ (parse_file c3Parse c3Src "m.py").functions.map
        (fun f => (f.name, f.is_async, f.writes_globals))
        = [("add_item", true, []), ("clear_items", true, [])]
    ∧ (parse_file c3Parse c3Src "m.py").variable_mutations.map
        (fun vm => (vm.name, vm.scope, vm.target_type))
        = [("shared_data", "module", some "list")] := by
  exact ⟨by decide, by decide, by decide⟩

/-! ## Claim C5 — risk-score monotonicity -/

/-- A critical race-condition violation (no graph, no test failures). -/
def c5Crit : RuleViolation := {
  rule_id := "race_condition", severity := .critical, file := "a.py",
  line := 1, title := "t", description := "d" }

/-- A low-severity violation of an unrelated rule. -/
def c5Low : RuleViolation := {
  rule_id := "unsanitized_io", severity := .low, file := "a.py",
  line := 2, title := "t2", description := "d2" }

/-- C5 counterexample: adding `c5Low` to the violation list `[c5Crit]`
drops the total score from 70 to 38, because `max_possible` grows with the
violation count. -/
theorem c5_counterexample :
    (compute_risk_score { violations := [c5Crit, c5Low] } none []).total_score
      < (compute_risk_score { violations := [c5Crit] } none []).total_score := by
  have h1 : (compute_risk_score { violations := [c5Crit] } none []).total_score
      = 70 := by
    simp only [compute_risk_score, totalWeightedScore, violationWeighted,
      violationFactors, violationBlastRadius, effectiveMaxDepth,
      SEVERITY_WEIGHTS, foldOver, List.foldl, pythonRound, c5Crit, c5Low,
      String.reduceEq]
    norm_num
  have h2 : (compute_risk_score { violations := [c5Crit, c5Low] } none
      []).total_score = 38 := by
    simp only [compute_risk_score, totalWeightedScore, violationWeighted,
      violationFactors, violationBlastRadius, effectiveMaxDepth,
      SEVERITY_WEIGHTS, foldOver, List.foldl, pythonRound, c5Crit, c5Low,
      String.reduceEq]
    norm_num
  rw [h1, h2]
  norm_num

/-- Each violation's weighted score is non-negative. -/
theorem violationWeighted_nonneg (g : Option CallGraph) (t : List String)
    (dep : Nat) (v : RuleViolation) : 0 ≤ violationWeighted g t dep v := by
  unfold violationWeighted
  refine mul_nonneg ?_ ?_
  · cases v.severity <;> norm_num [SEVERITY_WEIGHTS]
  · simp only [violationFactors]
    have hb : (0:ℚ) ≤ ((violationBlastRadius g v : ℚ) / (dep : ℚ)) := by
      positivity
    split_ifs <;> nlinarith

/-- Appending one violation adds its weighted score to the running total. -/
theorem totalWeightedScore_append (g : Option CallGraph) (t : List String)
    (dep : Nat) (V : List RuleViolation) (v : RuleViolation) :
    totalWeightedScore g t dep (V ++ [v])
      = totalWeightedScore g t dep V + violationWeighted g t dep v := by
  unfold totalWeightedScore foldOver
  rw [List.foldl_append]
  simp

/-- C5 (amended): the empty violation list scores exactly 0, and adding a
violation never decreases the scorer's weighted sum
`Σ base_weight × factors`; the normalised `total_score` itself can decrease
(see the counterexample), because `max_possible` grows with the violation
count. -/
theorem c5_zero_and_weighted_monotone :
    (∀ (re : List String) (n : Nat) (d : ℚ) (g : Option CallGraph)
       (t : List String),
       (compute_risk_score {
          violations := [],
          rules_executed := re,
          total_files_scanned := n,
          scan_duration_ms := d } g t).total_score = 0)
    ∧ (∀ (g : Option CallGraph) (t : List String) (dep : Nat)
         (V : List RuleViolation) (v : RuleViolation),
         totalWeightedScore g t dep V ≤ totalWeightedScore g t dep (V ++ [v])) := by
  constructor
  · intro re n d g t
    simp [compute_risk_score]
  · intro g t dep V v
    rw [totalWeightedScore_append]
    have := violationWeighted_nonneg g t dep v
    linarith

/-! ## Claim C6 — the scoring formula

A second definition written from the spec's words, to be compared with the
translated `compute_risk_score`. -/

/-- The normalisation base is positive. -/
theorem effectiveMaxDepth_pos (g : Option CallGraph) :
    0 < effectiveMaxDepth g := by
  unfold effectiveMaxDepth
  by_cases h : (match g with
    | some gr => gr.get_max_depth
    | none => 1) = 0
  · simp [h]
  · simp only [h, if_false]
    omega

/-- The spec's per-violation weighted score
`base_weight · (1.0 + 0.3·(blast_radius/max_depth) + 0.2·[mutates] +
0.3·[test_failure] + 0.2·[async])`, each bracket a 0/1 predicate on the
rule id. -/
def spec_weighted (g : Option CallGraph) (test_ids : List String)
    (v : RuleViolation) : ℚ :=
  (SEVERITY_WEIGHTS v.severity : ℚ) *
    (1.0 + 0.3 * ((violationBlastRadius g v : ℚ) / (effectiveMaxDepth g : ℚ))
         + 0.2 * (if v.rule_id ∈ ["shared_mutable_state", "race_condition",
                    "cross_module_mutation"] then 1 else 0)
         + 0.3 * (if v.rule_id ∈ test_ids then 1 else 0)
         + 0.2 * (if v.rule_id ∈ ["missing_await", "blocking_io_in_async",
                    "race_condition"] then 1 else 0))

/-- The spec's total: `round(Σ weighted / (n·10·2.0) · 100)` clamped to
`[0, 100]`. -/
def spec_total_score (violations : List RuleViolation) (g : Option CallGraph)
    (test_ids : List String) : Int :=
  min 100 (max 0 (pythonRound
    ((violations.map (spec_weighted g test_ids)).sum
      / ((violations.length : ℚ) * 10 * 2.0) * 100)))

/-- The translated per-violation weight agrees with the spec's expression. -/
theorem violationWeighted_eq_spec (g : Option CallGraph) (t : List String)
    (v : RuleViolation) :
    violationWeighted g t (effectiveMaxDepth g) v = spec_weighted g t v := by
  have hd := effectiveMaxDepth_pos g
  simp only [violationWeighted, violationFactors, spec_weighted, hd, if_true,
    List.mem_cons, List.not_mem_nil, or_false, Bool.or_eq_true,
    decide_eq_true_eq, or_assoc]
  split_ifs <;> ring

/-- The loop total is the sum of the per-violation weights. -/
theorem totalWeightedScore_eq_map_sum (g : Option CallGraph) (t : List String)
    (dep : Nat) (V : List RuleViolation) :
    totalWeightedScore g t dep V = (V.map (violationWeighted g t dep)).sum := by
  unfold totalWeightedScore foldOver
  suffices haux : ∀ c : ℚ,
      List.foldl (fun acc v => acc + violationWeighted g t dep v) c V
        = c + (V.map (violationWeighted g t dep)).sum by
    simpa using haux 0
  induction V with
  | nil => intro c; simp
  | cons v vs ih =>
      intro c
      simp only [List.foldl_cons, List.map_cons, List.sum_cons, ih]
      ring

/-- C6: for a non-empty violation list, the scorer's `total_score` equals
the spec's closed-form formula. -/
theorem c6_total_score_eq_spec_formula (rr : RuleResult)
    (g : Option CallGraph) (t : List String) (h : rr.violations ≠ []) :
    (compute_risk_score rr g t).total_score
      = spec_total_score rr.violations g t := by
  unfold compute_risk_score spec_total_score
  have hne : rr.violations.isEmpty = false := by
    simpa [List.isEmpty_iff] using h
  simp only [hne, Bool.false_eq_true, if_false]
  have hlen : ((rr.violations.length : ℚ) * 10 * 2.0) ≠ 0 := by
    have : rr.violations.length ≠ 0 := by
      simpa [List.length_eq_zero] using h
    positivity
  simp only [hlen, if_false]
  rw [totalWeightedScore_eq_map_sum]
  have hm : List.map (violationWeighted g t (effectiveMaxDepth g)) rr.violations
      = List.map (spec_weighted g t) rr.violations :=
    List.map_congr_left (fun v _ => violationWeighted_eq_spec g t v)
  rw [hm]

/-- C6 witness: the claim's formula instantiated at a concrete violation
list. -/
theorem c6_witness :
    ({ violations := [c5Crit, c5Low] } : RuleResult).violations ≠ []
    ∧ (compute_risk_score { violations := [c5Crit, c5Low] } none
        []).total_score
      = spec_total_score [c5Crit, c5Low] none [] := by
  refine ⟨by simp, ?_⟩
  exact c6_total_score_eq_spec_formula { violations := [c5Crit, c5Low] }
    none [] (by simp)

/-! ## Claim C7 — function-name preservation in the validator -/

/-- Check 3 cannot resurrect a failed verdict. -/
theorem check_route_decorators_false (pt : PyNode) (target : String)
    (decs : List String) (v : ValidationVerdict) (h : v.valid = false) :
    (check_route_decorators pt target decs v).valid = false := by
  unfold check_route_decorators
  split
  · split
    · dsimp only
      refine foldOver_invariant (fun w => w.valid = false) decs v _ h ?_
      intro w d _ hw
      dsimp only
      split
      · rfl
      · exact hw
    · exact h
  · exact h

/-- Check 4 cannot resurrect a failed verdict. -/
theorem check_globals_false (ot pt : PyNode) (v : ValidationVerdict)
    (h : v.valid = false) : (check_globals ot pt v).valid = false := by
  unfold check_globals
  dsimp only
  split
  · rfl
  · exact h

/-- Check 5 cannot resurrect a failed verdict. -/
theorem check_forbidden_imports_false (ot pt : PyNode) (v : ValidationVerdict)
    (h : v.valid = false) :
    (check_forbidden_imports ot pt v).valid = false := by
  unfold check_forbidden_imports
  dsimp only
  refine foldOver_invariant (fun w => w.valid = false) _ v _ h ?_
  intro w imp _ hw
  refine foldOver_invariant (fun w => w.valid = false) _ w _ hw ?_
  intro w2 forb _ hw2
  dsimp only
  split
  · rfl
  · exact hw2

/-- Check 6 cannot resurrect a failed verdict. -/
theorem check_blocking_calls_false (pt : PyNode) (target : String)
    (is_async : Bool) (v : ValidationVerdict) (h : v.valid = false) :
    (check_blocking_calls pt target is_async v).valid = false := by
  unfold check_blocking_calls
  split
  · split
    · dsimp only
      split_ifs <;> first | rfl | exact h
    · exact h
  · exact h

/-- Check 7 cannot resurrect a failed verdict. -/
theorem check_critical_lines_false (ot pt : PyNode) (target : String)
    (v : ValidationVerdict) (h : v.valid = false) :
    (check_critical_lines ot pt target v).valid = false := by
  unfold check_critical_lines
  split
  · dsimp only
    split_ifs <;> first | rfl | exact h
  · exact h

/-- The original of the C7 scenario: two functions `f` and `g`. -/
def c7OrigSrc : String := "def f():\n    pass\n\ndef g():\n    pass\n"

/-- A patch that deletes the non-target function `g` entirely. -/
def c7PatchedSrc : String := "def f():\n    pass\n"

/-- A patch that deletes the target function `f` instead. -/
def c7Patched2Src : String := "def g():\n    pass\n"

/-- The CPython parse of `c7OrigSrc`. -/
def c7OrigTree : PyNode := .moduleNode [
  .functionDef "f" [] [.passStmt 2] [] none 1 2,
  .functionDef "g" [] [.passStmt 5] [] none 4 5]

/-- The CPython parse of `c7PatchedSrc`. -/
def c7PatchedTree : PyNode := .moduleNode [
  .functionDef "f" [] [.passStmt 2] [] none 1 2]

/-- The CPython parse of `c7Patched2Src`. -/
def c7Patched2Tree : PyNode := .moduleNode [
  .functionDef "g" [] [.passStmt 2] [] none 1 2]

/-- Parser oracle for the C7 scenario. -/
def c7Parse : PyParse := fun s =>
  if s = c7OrigSrc then some c7OrigTree
  else if s = c7PatchedSrc then some c7PatchedTree
  else if s = c7Patched2Src then some c7Patched2Tree
  else none

/-- C7 counterexample: deleting the non-target function `g` passes the
validator (`valid = true`), although a function name present in the
original is absent from the patch. -/
theorem c7_counterexample :
    "g" ∈ get_function_names c7OrigTree
    ∧ "g" ∉ get_function_names c7PatchedTree
    ∧ (validate_patch_ast c7Parse c7OrigSrc c7PatchedSrc "f" false
        []).valid = true := by
  exact ⟨by decide, by decide, by decide⟩

/-- C7 (amended): the validator returns `valid = false` whenever the
*target* function is present in the original parse and absent from the
patched parse; removal of other function names is not flagged by check 2
(see the counterexample). -/
theorem c7_target_removal_rejected (pyParse : PyParse)
    (orig patched target : String) (is_async : Bool) (decs : List String)
    (ot pt : PyNode)
    (hpo : pyParse orig = some ot) (hpp : pyParse patched = some pt)
    (hin : target ∈ get_function_names ot)
    (hout : target ∉ get_function_names pt) :
    (validate_patch_ast pyParse orig patched target is_async decs).valid
      = false := by
  unfold validate_patch_ast
  simp only [hpo, hpp]
  have h2 : (check_target_function ot pt target {}).valid = false := by
    unfold check_target_function
    have hc : (decide (target ∈ get_function_names ot) &&
        !decide (target ∈ get_function_names pt)) = true := by
      simp [hin, hout]
    rw [if_pos (by simpa using hc)]
    rfl
  exact check_critical_lines_false ot pt target _
    (check_blocking_calls_false pt target is_async _
      (check_forbidden_imports_false ot pt _
        (check_globals_false ot pt _
          (check_route_decorators_false pt target decs _ h2))))

/-- C7 witness: removing the target `f` itself is rejected. -/
theorem c7_witness :
    (validate_patch_ast c7Parse c7OrigSrc c7Patched2Src "f" false
      []).valid = false :=
  c7_target_removal_rejected c7Parse c7OrigSrc c7Patched2Src "f" false []
    c7OrigTree c7Patched2Tree rfl rfl (by decide) (by decide)

/-! ## Claim C8 — edge endpoints and the nodes map -/

/-- The importing module of the C8 scenario: only a `from b import f`. -/
def c8ModA : ModuleAST := {
  file_path := "a.py",
  imports := [{ module := "b", names := ["f"], line := 1,
                is_from_import := true }] }

/-- The imported module of the C8 scenario: defines `f`. -/
def c8ModB : ModuleAST := {
  file_path := "b.py",
  functions := [{ name := "f", qualified_name := "f", line := 1,
                  end_line := 2, body_source := "def f():\n    pass" }] }

/-- C8 counterexample: the phase-3 import edge for `from b import f` gets
the synthetic source id `"a.py::__module__"`, which is not a key of
`nodes`. -/
theorem c8_counterexample :
    ∃ e ∈ (build_call_graph [("a.py", c8ModA), ("b.py", c8ModB)]).edges,
      e.call_type = .importKind
      ∧ e.source = "a.py::__module__"
      ∧ alistHas (build_call_graph [("a.py", c8ModA), ("b.py", c8ModB)]).nodes
          e.source = false := by
  refine ⟨{ source := "a.py::__module__", target := "b.py::f",
            call_type := .importKind, line := 1 }, ?_, rfl, rfl, by decide⟩
  decide

/-- C8 (amended): in every built call graph, the target id of every edge is
a key of `nodes`, and the source id of every `direct` (phase-2) edge is a
key of `nodes`; an `import` (phase-3) edge may instead carry the synthetic
source `"<module>::__module__"`, which is not in `nodes` (see the
counterexample). -/
theorem c8_edge_endpoints (modules : List (String × ModuleAST)) :
    ∀ e ∈ (build_call_graph modules).edges,
      alistHas (build_call_graph modules).nodes e.target = true
      ∧ (e.call_type = .direct →
          alistHas (build_call_graph modules).nodes e.source = true) := by
  unfold build_call_graph
  dsimp only
  set nodes := (buildGraphNodes modules).1 with hnodes
  set Q : CallGraphEdge → Prop := fun e =>
    alistHas nodes e.target = true ∧
      (e.call_type = .direct → alistHas nodes e.source = true) with hQ
  suffices h : (∀ e ∈ foldOver modules ([] : List CallGraphEdge)
      (fun edges fm =>
        foldOver (allFuncs fm.2) edges fun edges func =>
          match alistGet nodes (make_node_id fm.1 (orName func)) with
          | none => edges
          | some caller_node =>
              foldOver func.calls edges fun edges call_name =>
                foldOver (resolve_callee call_name fm.1
                    (buildGraphNodes modules).2 (buildImportMap fm.2.imports)
                    modules) edges fun edges callee_id =>
                  match alistGet nodes callee_id with
                  | some callee_node =>
                      edges ++ [{
                        source := make_node_id fm.1 (orName func),
                        target := callee_id,
                        call_type := .direct,
                        async_boundary_crossing :=
                          caller_node.is_async != callee_node.is_async }]
                  | none => edges), Q e)
      ∧ (∀ e ∈ foldOver modules ([] : List CallGraphEdge)
      (fun edges fm =>
        foldOver fm.2.imports edges fun edges imp =>
          if imp.is_from_import then
            foldOver modules edges fun edges tm =>
              if tm.1 = fm.1 then edges
              else if module_matches imp.module tm.1 then
                foldOver imp.names edges fun edges name =>
                  if alistHas nodes (make_node_id tm.1 name) then
                    edges ++ [{
                      source :=
                        if alistHas nodes (make_node_id fm.1 name) then
                          make_node_id fm.1 name
                        else make_node_id fm.1 "__module__",
                      target := make_node_id tm.1 name,
                      call_type := .importKind,
                      line := imp.line }]
                  else edges
              else edges
          else edges), Q e) by
    intro e he
    rw [List.mem_append] at he
    rcases he with he | he
    · exact h.1 e he
    · exact h.2 e he
  constructor
  · refine foldOver_invariant (fun edges => ∀ e ∈ edges, Q e) _ _ _
      (by intro e he; cases he) ?_
    intro edges fm _ hP
    refine foldOver_invariant (fun edges => ∀ e ∈ edges, Q e) _ _ _ hP ?_
    intro edges2 func _ hP2
    dsimp only
    split
    · exact hP2
    · rename_i caller_node hcaller
      refine foldOver_invariant (fun edges => ∀ e ∈ edges, Q e) _ _ _ hP2 ?_
      intro edges3 call_name _ hP3
      refine foldOver_invariant (fun edges => ∀ e ∈ edges, Q e) _ _ _ hP3 ?_
      intro edges4 callee_id _ hP4
      dsimp only
      split
      · rename_i callee_node hcallee
        intro e he
        rw [List.mem_append] at he
        rcases he with he | he
        · exact hP4 e he
        · rw [List.mem_singleton] at he
          subst he
          refine ⟨by simp [alistHas, hcallee], fun _ => ?_⟩
          simp [alistHas, hcaller]
      · exact hP4
  · refine foldOver_invariant (fun edges => ∀ e ∈ edges, Q e) _ _ _
      (by intro e he; cases he) ?_
    intro edges fm _ hP
    refine foldOver_invariant (fun edges => ∀ e ∈ edges, Q e) _ _ _ hP ?_
    intro edges2 imp _ hP2
    dsimp only
    split
    · refine foldOver_invariant (fun edges => ∀ e ∈ edges, Q e) _ _ _ hP2 ?_
      intro edges3 tm _ hP3
      dsimp only
      split
      · exact hP3
      · split
        · refine foldOver_invariant (fun edges => ∀ e ∈ edges, Q e) _ _ _ hP3 ?_
          intro edges4 name _ hP4
          dsimp only
          split
          · rename_i htar
            intro e he
            rw [List.mem_append] at he
            rcases he with he | he
            · exact hP4 e he
            · rw [List.mem_singleton] at he
              subst he
              exact ⟨htar, by intro hc; cases hc⟩
          · exact hP4
        · exact hP3
    · exact hP2

/-! ## Claim C1 — orchestrator safety -/

/-- A saved snapshot is what `rollback` later returns. -/
theorem rollback_get_save (rb : RollbackState) (f fn s : String) :
    rollback_get (save_snapshot rb f fn s) f fn = some s := by
  unfold rollback_get save_snapshot
  rw [alistGet_set_self]
  rfl

/-- A non-empty `dict.get(k, "")` pins down the stored value. -/
theorem alistGet_of_getD_ne (m : List (String × String)) (k : String)
    (h : (alistGet m k).getD "" ≠ "") :
    alistGet m k = some ((alistGet m k).getD "") := by
  cases hm : alistGet m k with
  | none => rw [hm] at h; simp at h
  | some s => rfl

/-- The attempt loop never touches the result's `file_path` or `rule_id`. -/
theorem attemptLoop_fields (cfg : PipelineConfig) (pyParse : PyParse)
    (gen : Nat → Option String) (review : String → Bool)
    (rule_id file_path func_name source : String) (is_async : Bool)
    (decorators : List String) (score : Int) (rb : RollbackState) :
    ∀ (fuel attempt : Nat) (res : PatchResult)
      (sources : List (String × String))
      (out : PatchResult × List (String × String)),
      out = attemptLoop cfg pyParse gen review rule_id file_path func_name
        source is_async decorators score rb fuel attempt res sources →
      out.1.file_path = res.file_path ∧ out.1.rule_id = res.rule_id := by
  intro fuel
  induction fuel with
  | zero =>
      intro attempt res sources out hout
      unfold attemptLoop at hout
      split at hout <;> subst hout <;> exact ⟨rfl, rfl⟩
  | succ fuel ih =>
      intro attempt res sources out hout
      unfold attemptLoop at hout
      cases hgen : gen attempt with
      | none =>
          simp only [hgen] at hout
          by_cases hlt : attempt < cfg.max_retries
          · simp only [if_pos hlt] at hout
            have h := ih (attempt + 1) _ sources out hout
            exact h
          · simp only [if_neg hlt] at hout
            subst hout
            exact ⟨rfl, rfl⟩
      | some new_code =>
          simp only [hgen] at hout
          cases happ : apply_function_patch pyParse source func_name new_code with
          | none =>
              simp only [happ] at hout
              by_cases hlt : attempt < cfg.max_retries
              · simp only [if_pos hlt] at hout
                have h := ih (attempt + 1) _ sources out hout
                exact h
              · simp only [if_neg hlt] at hout
                subst hout
                exact ⟨rfl, rfl⟩
          | some patched_source =>
              simp only [happ] at hout
              by_cases hvalid : (validate_patch_ast pyParse source
                  patched_source func_name is_async decorators).valid = true
              · rw [if_neg (by simp [hvalid])] at hout
                by_cases hrev : (cfg.review_enabled && cfg.has_llm_gateway &&
                    decide (attempt < cfg.max_retries) &&
                    decide (¬ review new_code = true)) = true
                · rw [if_pos hrev] at hout
                  have h := ih (attempt + 1) _ sources out hout
                  exact h
                · rw [if_neg hrev] at hout
                  by_cases hpass : (rescan_patched_source pyParse
                      patched_source file_path rule_id score).passed = true
                  · rw [if_pos hpass] at hout
                    subst hout
                    exact ⟨rfl, rfl⟩
                  · rw [if_neg hpass] at hout
                    by_cases hrisk : (rescan_patched_source pyParse
                        patched_source file_path rule_id
                        score).risk_increased = true
                    · rw [if_pos hrisk] at hout
                      subst hout
                      exact ⟨rfl, rfl⟩
                    · rw [if_neg hrisk] at hout
                      by_cases hlt : attempt < cfg.max_retries
                      · simp only [if_pos hlt] at hout
                        have h := ih (attempt + 1) _ sources out hout
                        exact h
                      · simp only [if_neg hlt] at hout
                        subst hout
                        exact ⟨rfl, rfl⟩
              · rw [if_pos (by simp [hvalid])] at hout
                by_cases hlt : attempt < cfg.max_retries
                · simp only [if_pos hlt] at hout
                  have h := ih (attempt + 1) _ sources out hout
                  exact h
                · simp only [if_neg hlt] at hout
                  subst hout
                  exact ⟨rfl, rfl⟩

/-- Behaviour of the `_process_violation` attempt loop: the working-source
dict is mutated only by the rollback branch (where it receives the
snapshot), an `applied` result carries a patch whose rescan passed, and a
`rollback` result stems from a rescan that reported `risk_increased`. -/
theorem attemptLoop_spec (cfg : PipelineConfig) (pyParse : PyParse)
    (gen : Nat → Option String) (review : String → Bool)
    (rule_id file_path func_name source : String) (is_async : Bool)
    (decorators : List String) (score : Int) (rb : RollbackState) :
    ∀ (fuel attempt : Nat) (res : PatchResult)
      (sources : List (String × String))
      (out : PatchResult × List (String × String)),
      out = attemptLoop cfg pyParse gen review rule_id file_path func_name
        source is_async decorators score rb fuel attempt res sources →
      res.status = "failed" →
      ((out.1.status = "rollback" →
           out.2 = (match rollback_get rb file_path func_name with
             | some original =>
                 if original ≠ "" then alistSet sources file_path original
                 else sources
             | none => sources)
           ∧ ∃ p, (rescan_patched_source pyParse p file_path rule_id
               score).risk_increased = true)
       ∧ (out.1.status ≠ "rollback" → out.2 = sources)
       ∧ (out.1.status = "applied" →
           (rescan_patched_source pyParse out.1.patched_code file_path
             rule_id score).passed = true)) := by
  intro fuel
  induction fuel with
  | zero =>
      intro attempt res sources out hout hres
      unfold attemptLoop at hout
      subst hout
      refine ⟨?_, fun _ => rfl, ?_⟩ <;>
      · intro h
        dsimp only at h
        split at h
        · simp at h
        · rw [hres] at h; simp at h
  | succ fuel ih =>
      intro attempt res sources out hout hres
      unfold attemptLoop at hout
      cases hgen : gen attempt with
      | none =>
          simp only [hgen] at hout
          by_cases hlt : attempt < cfg.max_retries
          · simp only [if_pos hlt] at hout
            exact ih (attempt + 1) _ sources out hout (by simpa using hres)
          · simp only [if_neg hlt] at hout
            subst hout
            refine ⟨?_, fun _ => rfl, ?_⟩
            · intro h; exact absurd h (by simp)
            · intro h; exact absurd h (by simp)
      | some new_code =>
          simp only [hgen] at hout
          cases happ : apply_function_patch pyParse source func_name new_code with
          | none =>
              simp only [happ] at hout
              by_cases hlt : attempt < cfg.max_retries
              · simp only [if_pos hlt] at hout
                exact ih (attempt + 1) _ sources out hout (by simpa using hres)
              · simp only [if_neg hlt] at hout
                subst hout
                refine ⟨?_, fun _ => rfl, ?_⟩
                · intro h; exact absurd h (by simp)
                · intro h; exact absurd h (by simp)
          | some patched_source =>
              simp only [happ] at hout
              by_cases hvalid : (validate_patch_ast pyParse source
                  patched_source func_name is_async decorators).valid = true
              · rw [if_neg (by simp [hvalid])] at hout
                by_cases hrev : (cfg.review_enabled && cfg.has_llm_gateway &&
                    decide (attempt < cfg.max_retries) &&
                    decide (¬ review new_code = true)) = true
                · rw [if_pos hrev] at hout
                  exact ih (attempt + 1) _ sources out hout (by simpa using hres)
                · rw [if_neg hrev] at hout
                  by_cases hpass : (rescan_patched_source pyParse
                      patched_source file_path rule_id score).passed = true
                  · rw [if_pos hpass] at hout
                    subst hout
                    refine ⟨?_, fun _ => rfl, fun _ => hpass⟩
                    intro h; exact absurd h (by simp)
                  · rw [if_neg hpass] at hout
                    by_cases hrisk : (rescan_patched_source pyParse
                        patched_source file_path rule_id
                        score).risk_increased = true
                    · rw [if_pos hrisk] at hout
                      subst hout
                      refine ⟨?_, ?_, ?_⟩
                      · intro _
                        exact ⟨rfl, patched_source, hrisk⟩
                      · intro h; exact absurd rfl h
                      · intro h; exact absurd h (by simp)
                    · rw [if_neg hrisk] at hout
                      by_cases hlt : attempt < cfg.max_retries
                      · simp only [if_pos hlt] at hout
                        exact ih (attempt + 1) _ sources out hout
                          (by simpa using hres)
                      · simp only [if_neg hlt] at hout
                        subst hout
                        refine ⟨?_, fun _ => rfl, ?_⟩
                        · intro h; exact absurd h (by simp)
                        · intro h; exact absurd h (by simp)
              · rw [if_pos (by simp [hvalid])] at hout
                by_cases hlt : attempt < cfg.max_retries
                · simp only [if_pos hlt] at hout
                  exact ih (attempt + 1) _ sources out hout (by simpa using hres)
                · simp only [if_neg hlt] at hout
                  subst hout
                  refine ⟨?_, fun _ => rfl, ?_⟩
                  · intro h; exact absurd h (by simp)
                  · intro h; exact absurd h (by simp)

/-- Membership pins a dict lookup down to its `getD` value. -/
theorem alistGet_of_has {α : Type} (m : List (String × α)) (k : String)
    (d : α) (h : alistHas m k = true) :
    alistGet m k = some ((alistGet m k).getD d) := by
  unfold alistHas at h
  cases hm : alistGet m k with
  | none => rw [hm] at h; simp at h
  | some s => rfl

/-- Behaviour of one `_process_violation` call: the returned result keeps
the violation's file, a `rollback` result leaves the working sources
pointwise unchanged (the snapshot is restored) and stems from a
`risk_increased` rescan, any other result leaves the sources untouched
unless applied, and an `applied` result's patch passed its rescan. -/
theorem process_violation_spec (cfg : PipelineConfig) (pyParse : PyParse)
    (gen : Nat → Option String) (review : String → Bool)
    (violation : RuleViolation) (sources : List (String × String))
    (score : Int) (rb : RollbackState)
    (out : PatchResult × List (String × String) × RollbackState)
    (hout : out = process_violation cfg pyParse gen review violation sources
      score rb) :
    out.1.file_path = violation.file
    ∧ (out.1.status = "rollback" →
        (∀ k, alistGet out.2.1 k = alistGet sources k)
        ∧ ∃ p, (rescan_patched_source pyParse p violation.file
            violation.rule_id score).risk_increased = true)
    ∧ (out.1.status ≠ "rollback" → out.2.1 = sources)
    ∧ (out.1.status = "applied" →
        (rescan_patched_source pyParse out.1.patched_code violation.file
          violation.rule_id score).passed = true) := by
  simp only [process_violation] at hout
  split at hout
  · subst hout
    refine ⟨rfl, ?_, fun _ => rfl, ?_⟩
    · intro h; exact absurd h (by simp)
    · intro h; exact absurd h (by simp)
  · rename_i hsrc
    have hfields := attemptLoop_fields cfg pyParse gen review
      violation.rule_id violation.file _ _ _ _ score _
      (cfg.max_retries + 1) 0 _ sources (out.1, out.2.1) (by rw [hout])
    have hspec := attemptLoop_spec cfg pyParse gen review
      violation.rule_id violation.file _ _ _ _ score _
      (cfg.max_retries + 1) 0 _ sources (out.1, out.2.1) (by rw [hout]) rfl
    refine ⟨hfields.1, ?_, ?_, ?_⟩
    · intro hrb
      obtain ⟨h2, hp⟩ := hspec.1 hrb
      rw [rollback_get_save] at h2
      simp only [ne_eq, hsrc, not_false_eq_true, if_true] at h2
      refine ⟨?_, hp⟩
      intro k
      by_cases hk : k = violation.file
      · subst hk
        rw [h2, alistGet_set_self]
        exact (alistGet_of_getD_ne sources violation.file hsrc).symm
      · rw [h2, alistGet_set_ne _ _ _ _ hk]
    · intro hrb
      exact hspec.2.1 hrb
    · intro happ
      exact hspec.2.2 happ
/-- Behaviour of one iteration of `PatchPipeline.run`'s loop: every value
in the updated working-source map is either an old value for the same key
or a patch whose rescan passed, and a `rollback` iteration leaves the map
pointwise unchanged. -/
theorem pipelineStep_spec (cfg : PipelineConfig) (pyParse : PyParse)
    (gen : Nat → Option String) (review : String → Bool)
    (violation : RuleViolation) (score : Int)
    (sources : List (String × String)) (rb : RollbackState)
    (out : PatchResult × List (String × String) × RollbackState)
    (hout : out = pipelineStep cfg pyParse gen review violation score
      sources rb) :
    (∀ k val, alistGet out.2.1 k = some val →
      alistGet sources k = some val
      ∨ (rescan_patched_source pyParse val k violation.rule_id
          score).passed = true)
    ∧ (out.1.status = "rollback" →
        (∀ k, alistGet out.2.1 k = alistGet sources k)
        ∧ ∃ p, (rescan_patched_source pyParse p violation.file
            violation.rule_id score).risk_increased = true) := by
  have hpv := process_violation_spec cfg pyParse gen review violation sources
    score rb
    (process_violation cfg pyParse gen review violation sources score rb) rfl
  simp only [pipelineStep] at hout
  constructor
  · intro k val hk
    rw [hout] at hk
    dsimp only at hk
    by_cases hcond : ((process_violation cfg pyParse gen review violation
          sources score rb).1.status = "applied"
        && alistHas (process_violation cfg pyParse gen review violation
          sources score rb).2.1
          (process_violation cfg pyParse gen review violation sources score
            rb).1.file_path) = true
    · rw [if_pos hcond] at hk
      rw [Bool.and_eq_true, decide_eq_true_eq] at hcond
      obtain ⟨happl, hhas⟩ := hcond
      have hs1 : (process_violation cfg pyParse gen review violation sources
          score rb).2.1 = sources :=
        hpv.2.2.1 (by rw [happl]; simp)
      rw [hs1] at hk hhas
      rw [hpv.1] at hk hhas
      by_cases hkf : k = violation.file
      · subst hkf
        rw [alistGet_set_self] at hk
        injection hk with hval
        subst hval
        by_cases hpc : (process_violation cfg pyParse gen review violation
            sources score rb).1.patched_code ≠ ""
        · rw [if_pos hpc]
          exact Or.inr (hpv.2.2.2 happl)
        · rw [if_neg hpc]
          exact Or.inl (alistGet_of_has sources violation.file "" hhas)
      · rw [alistGet_set_ne _ _ _ _ hkf] at hk
        exact Or.inl hk
    · rw [if_neg hcond] at hk
      by_cases hrb : (process_violation cfg pyParse gen review violation
          sources score rb).1.status = "rollback"
      · rw [(hpv.2.1 hrb).1 k] at hk
        exact Or.inl hk
      · rw [hpv.2.2.1 hrb] at hk
        exact Or.inl hk
  · intro hrb
    have hrb1 : (process_violation cfg pyParse gen review violation sources
        score rb).1.status = "rollback" := by
      rw [hout] at hrb
      exact hrb
    have hcond : ¬ (((process_violation cfg pyParse gen review violation
          sources score rb).1.status = "applied")
        && alistHas (process_violation cfg pyParse gen review violation
          sources score rb).2.1
          (process_violation cfg pyParse gen review violation sources score
            rb).1.file_path) = true := by
      rw [hrb1]
      simp
    refine ⟨?_, (hpv.2.1 hrb1).2⟩
    intro k
    rw [hout]
    dsimp only
    rw [if_neg hcond]
    exact (hpv.2.1 hrb1).1 k
/-- C1: orchestrator safety. Every entry of the working-source map returned
by `PatchPipeline.run` is either the file's original content or a patch
whose rescan passed; and whenever a per-violation step ends in `rollback`
(the status produced exactly when the patch's rescan reported
`risk_increased`), the working-source map after that step is pointwise
identical to the map before it, so the file equals its pre-patch
snapshot. -/
theorem c1_orchestrator_safety (cfg : PipelineConfig) (pyParse : PyParse)
    (genO : RuleViolation → Nat → Option String)
    (reviewO : RuleViolation → String → Bool)
    (files : List PatchFileInput) (target_rule_ids : Option (List String)) :
    (∀ k val,
      alistGet (pipeline_run cfg pyParse genO reviewO files
        target_rule_ids).patched_sources k = some val →
      alistGet (pipelineInitialSources files) k = some val
      ∨ ∃ rid, (rescan_patched_source pyParse val k rid
          (pipelineOriginalScore pyParse files)).passed = true)
    ∧ (∀ (gen : Nat → Option String) (review : String → Bool)
        (violation : RuleViolation) (score : Int)
        (sources : List (String × String)) (rb : RollbackState),
        (pipelineStep cfg pyParse gen review violation score sources
          rb).1.status = "rollback" →
        (∀ k, alistGet (pipelineStep cfg pyParse gen review violation score
          sources rb).2.1 k = alistGet sources k)
        ∧ ∃ p, (rescan_patched_source pyParse p violation.file
            violation.rule_id score).risk_increased = true) := by
  constructor
  · intro k val
    simp only [pipeline_run]
    refine foldOver_invariant
      (fun acc : List PatchResult × List (String × String) × RollbackState =>
        ∀ k val, alistGet acc.2.1 k = some val →
          alistGet (pipelineInitialSources files) k = some val
          ∨ ∃ rid, (rescan_patched_source pyParse val k rid
              (pipelineOriginalScore pyParse files)).passed = true)
      _ _ _ ?_ ?_ k val
    · intro k' val' h
      exact Or.inl h
    · intro b a _ hPb k' val' hk
      dsimp only at hk
      have hs := (pipelineStep_spec cfg pyParse (genO a) (reviewO a) a
        (pipelineOriginalScore pyParse files) b.2.1 b.2.2 _ rfl).1 k' val' hk
      rcases hs with h | h
      · exact hPb k' val' h
      · exact Or.inr ⟨a.rule_id, h⟩
  · intro gen review violation score sources rb hrb
    exact (pipelineStep_spec cfg pyParse gen review violation score sources
      rb _ rfl).2 hrb
/-- C8 witness: the concrete import edge of the C8 scenario is in the
built graph, and its target is a key of `nodes`. -/
theorem c8_witness :
    ({ source := "a.py::__module__", target := "b.py::f",
       call_type := .importKind, line := 1 } : CallGraphEdge)
      ∈ (build_call_graph [("a.py", c8ModA), ("b.py", c8ModB)]).edges
    ∧ alistHas (build_call_graph [("a.py", c8ModA), ("b.py", c8ModB)]).nodes
        "b.py::f" = true :=
  ⟨by decide,
   (c8_edge_endpoints [("a.py", c8ModA), ("b.py", c8ModB)]
      { source := "a.py::__module__", target := "b.py::f",
        call_type := .importKind, line := 1 } (by decide)).1⟩
end BlastShield
